import Mathlib

/-!
Shallow embedding of the RetailFixIt ML control plane
(src/src/ml/models/model_registry.py, src/src/ml/deployment/blue_green_deployer.py,
src/src/ml/monitoring/drift_detector.py, src/src/ml/training/feedback_processor.py)
together with theorems settling the frozen claims about it.

Modelling conventions, used throughout:
  * Python dicts are insertion-ordered association lists; `alookup` finds the
    first binding of a key and `aset` replaces the first binding in place or
    appends a new one at the end, which is exactly `d[k] = v` semantics.
  * `datetime.utcnow()` is a logical clock: every state carries `clock : Nat`,
    an operation stamps records with the current clock value and increments it
    once before returning.  ISO-8601 strings compare lexicographically in
    chronological order, so the order structure is preserved.
  * Python floats are idealised as exact rationals, and the drift statistics
    (which use `math.log` / `sqrt`) as real numbers.
  * File writes (pickle/json/parquet) are modelled by keeping the written data
    in the returned state (e.g. an `artifacts` map keyed by path), since the
    code reads them back through the same keys.
-/

/-- First value bound to a key in an association list (Python `d.get(k)`). -/
def alookup {α β : Type} [DecidableEq α] : List (α × β) → α → Option β
  | [], _ => none
  | (k, v) :: rest, k' => if k' = k then some v else alookup rest k'

/-- Update the first binding of a key, or append a new binding at the end
(Python `d[k] = v` on an insertion-ordered dict). -/
def aset {α β : Type} [DecidableEq α] : List (α × β) → α → β → List (α × β)
  | [], k, v => [(k, v)]
  | (k', v') :: rest, k, v =>
      if k = k' then (k, v) :: rest else (k', v') :: aset rest k v

theorem alookup_aset {α β : Type} [DecidableEq α] (l : List (α × β)) (k : α) (v : β) (k' : α) :
    alookup (aset l k v) k' = if k' = k then some v else alookup l k' := by
  induction l with
  | nil =>
      by_cases h : k' = k <;> simp [aset, alookup, h]
  | cons p rest ih =>
      obtain ⟨pk, pv⟩ := p
      by_cases hk : k = pk
      · subst hk
        by_cases h : k' = k <;> simp [aset, alookup, h]
      · by_cases h : k' = pk
        · subst h
          have hne : ¬ k' = k := fun he => hk (he ▸ rfl)
          simp [aset, alookup, hk, hne]
        · simp [aset, alookup, hk, h, ih]

theorem alookup_aset_self {α β : Type} [DecidableEq α] (l : List (α × β)) (k : α) (v : β) :
    alookup (aset l k v) k = some v := by
  simp [alookup_aset]

theorem alookup_aset_ne {α β : Type} [DecidableEq α] (l : List (α × β)) (k : α) (v : β)
    (k' : α) (h : k' ≠ k) : alookup (aset l k v) k' = alookup l k' := by
  simp [alookup_aset, h]

theorem mem_of_alookup_eq_some {α β : Type} [DecidableEq α] {l : List (α × β)} {k : α} {v : β}
    (h : alookup l k = some v) : (k, v) ∈ l := by
  induction l with
  | nil => simp [alookup] at h
  | cons p rest ih =>
      obtain ⟨pk, pv⟩ := p
      by_cases hk : k = pk
      · subst hk
        simp [alookup] at h
        simp [h]
      · simp [alookup, hk] at h
        exact List.mem_cons_of_mem _ (ih h)

theorem keys_aset {α β : Type} [DecidableEq α] (l : List (α × β)) (k : α) (v : β) :
    (aset l k v).map Prod.fst = if k ∈ l.map Prod.fst then l.map Prod.fst
      else l.map Prod.fst ++ [k] := by
  induction l with
  | nil => simp [aset]
  | cons p rest ih =>
      obtain ⟨pk, pv⟩ := p
      by_cases hk : k = pk
      · subst hk; simp [aset]
      · simp [aset, hk, ih]
        by_cases hmem : k ∈ rest.map Prod.fst <;>
          simp [hmem, Ne.symm hk, hk]

theorem nodup_keys_aset {α β : Type} [DecidableEq α] (l : List (α × β)) (k : α) (v : β)
    (h : (l.map Prod.fst).Nodup) : ((aset l k v).map Prod.fst).Nodup := by
  rw [keys_aset]
  by_cases hmem : k ∈ l.map Prod.fst
  · simpa [hmem]
  · simp only [hmem, if_false]
    exact List.Nodup.append h (List.nodup_singleton k)
      (by simpa [List.disjoint_singleton] using hmem)

theorem mem_aset_iff {α β : Type} [DecidableEq α] {l : List (α × β)} (k : α) (v : β)
    (hnd : (l.map Prod.fst).Nodup) (e : α × β) :
    e ∈ aset l k v ↔ e = (k, v) ∨ (e ∈ l ∧ e.1 ≠ k) := by
  induction l with
  | nil =>
      constructor
      · intro h
        simp [aset] at h
        exact Or.inl h
      · rintro (rfl | ⟨h, _⟩)
        · simp [aset]
        · simp at h
  | cons p rest ih =>
      obtain ⟨pk, pv⟩ := p
      simp only [List.map_cons, List.nodup_cons] at hnd
      by_cases hk : k = pk
      · subst hk
        simp only [aset, if_pos rfl]
        constructor
        · intro h
          rcases List.mem_cons.mp h with he | he
          · exact Or.inl he
          · refine Or.inr ⟨List.mem_cons_of_mem _ he, ?_⟩
            intro hek
            exact hnd.1 (hek ▸ List.mem_map_of_mem Prod.fst he)
        · rintro (rfl | ⟨he, hne⟩)
          · exact List.mem_cons_self _ _
          · rcases List.mem_cons.mp he with he' | he'
            · exact absurd (by rw [he']) hne
            · exact List.mem_cons_of_mem _ he'
      · simp only [aset, if_neg hk]
        constructor
        · intro he
          rcases List.mem_cons.mp he with rfl | he'
          · refine Or.inr ⟨List.mem_cons_self _ _, ?_⟩
            intro hek
            exact hk hek.symm
          · rcases (ih hnd.2 ).mp he' with rfl | ⟨hm, hne⟩
            · exact Or.inl rfl
            · exact Or.inr ⟨List.mem_cons_of_mem _ hm, hne⟩
        · rintro (rfl | ⟨hm, hne⟩)
          · exact List.mem_cons_of_mem _ ((ih hnd.2).mpr (Or.inl rfl))
          · rcases List.mem_cons.mp hm with rfl | hm'
            · exact List.mem_cons_self _ _
            · exact List.mem_cons_of_mem _ ((ih hnd.2).mpr (Or.inr ⟨hm', hne⟩))

theorem alookup_eq_some_of_mem {α β : Type} [DecidableEq α] {l : List (α × β)} {k : α} {v : β}
    (hnd : (l.map Prod.fst).Nodup) (h : (k, v) ∈ l) : alookup l k = some v := by
  induction l with
  | nil => simp at h
  | cons p rest ih =>
      obtain ⟨pk, pv⟩ := p
      simp only [List.map_cons, List.nodup_cons] at hnd
      rcases List.mem_cons.mp h with he | hm
      · obtain ⟨rfl, rfl⟩ := Prod.mk.inj_iff.mp he
        simp [alookup]
      · have hk : k ≠ pk := by
          intro hkk
          exact hnd.1 (hkk ▸ List.mem_map_of_mem Prod.fst hm)
        simp [alookup, hk]
        exact ih hnd.2 hm

/-! ## Model Registry (src/src/ml/models/model_registry.py) -/

namespace Registry

/-- Enum `ModelStatus` from model_registry.py. -/
inductive ModelStatus where
  | registered
  | staging
  | production
  | archived
  | deprecated
deriving DecidableEq, Repr

/-- Dataclass `ModelVersion` from model_registry.py; timestamps are logical
clock values, float fields are rationals, `model` artifacts are opaque strings. -/
structure ModelVersion where
  version : String
  modelType : String
  status : ModelStatus
  createdAt : Nat
  updatedAt : Nat
  trainingDataHash : String
  trainingSamples : Nat
  trainingDurationSeconds : ℚ
  metrics : List (String × ℚ)
  parentVersion : Option String
  trainingConfig : List (String × String)
  featureNames : List String
  deployedAt : Option Nat
  deploymentEnvironment : Option String
  modelPath : String
  metadataPath : String
deriving DecidableEq, Repr

/-- Dataclass `ModelLineage` from model_registry.py. -/
structure ModelLineage where
  version : String
  parentVersion : Option String
  trainingDataSources : List String
  trainingDataHash : String
  featureEngineeringVersion : String
  hyperparameters : List (String × String)
  createdAt : Nat
deriving DecidableEq, Repr

/-- The in-memory state of `ModelRegistry`: `_registry` (model type → version →
ModelVersion), `_lineage`, `_production_versions`, `_staging_versions`; the
`artifacts` map records the pickled model blobs written under `model_path`,
and `clock` the logical `utcnow`. -/
structure State where
  registry : List (String × List (String × ModelVersion))
  lineage : List (String × ModelLineage)
  productionVersions : List (String × String)
  stagingVersions : List (String × String)
  artifacts : List (String × String)
  clock : Nat
deriving DecidableEq, Repr

/-- A fresh registry (empty storage directory). -/
def initial : State :=
  { registry := [], lineage := [], productionVersions := [], stagingVersions := []
  , artifacts := [], clock := 0 }

/-- Versions table of a model type (empty when the type is unknown). -/
def versionsOf (s : State) (modelType : String) : List (String × ModelVersion) :=
  (alookup s.registry modelType).getD []

/-- Status of a stored version, when present. -/
def statusOf (s : State) (modelType version : String) : Option ModelStatus :=
  (alookup (versionsOf s modelType) version).map ModelVersion.status

/-- `_compute_hash` (sha256 truncated to 16 hex chars) modelled as an opaque
deterministic function of the pickled artifact. -/
def computeHash (data : String) : String :=
  "sha256:" ++ data

/-- Path `storage_path/model_type/version/model.pkl` used as artifact key. -/
def modelPathOf (modelType version : String) : String :=
  modelType ++ "/" ++ version ++ "/model.pkl"

/-- `ModelRegistry.register_model`.  Mirrors the source line by line: it pickles
the artifact, builds a `ModelVersion` with status Registered, stores it under
`registry[model_type][version]` (note: there is no duplicate check — an
existing (model_type, version) entry is silently overwritten), records lineage
under the key `model_type:version`, and returns the new `ModelVersion`. -/
def registerModel (s : State) (modelType : String) (model : String) (version : String)
    (metrics : List (String × ℚ)) (trainingSamples : Nat) (trainingDuration : ℚ)
    (trainingDataHash : String) (featureNames : List String)
    (trainingConfig : List (String × String)) (parentVersion : Option String) :
    State × ModelVersion :=
  let now := s.clock
  let mpath := modelPathOf modelType version
  let mv : ModelVersion :=
    { version := version
    , modelType := modelType
    , status := ModelStatus.registered
    , createdAt := now
    , updatedAt := now
    , trainingDataHash := if trainingDataHash = "" then computeHash model else trainingDataHash
    , trainingSamples := trainingSamples
    , trainingDurationSeconds := trainingDuration
    , metrics := metrics
    , parentVersion := parentVersion
    , trainingConfig := trainingConfig
    , featureNames := featureNames
    , deployedAt := none
    , deploymentEnvironment := none
    , modelPath := mpath
    , metadataPath := modelType ++ "/" ++ version ++ "/metadata.json" }
  let lin : ModelLineage :=
    { version := version
    , parentVersion := parentVersion
    , trainingDataSources := []
    , trainingDataHash := trainingDataHash
    , featureEngineeringVersion := "1.0.0"
    , hyperparameters := trainingConfig
    , createdAt := now }
  let versions := versionsOf s modelType
  ({ s with
      registry := aset s.registry modelType (aset versions version mv)
    , lineage := aset s.lineage (modelType ++ ":" ++ version) lin
    , artifacts := aset s.artifacts mpath model
    , clock := s.clock + 1 }, mv)

/-- `ModelRegistry.promote_to_staging`. -/
def promoteToStaging (s : State) (modelType version : String) : State × Bool :=
  match alookup s.registry modelType with
  | none => (s, false)
  | some versions =>
    match alookup versions version with
    | none => (s, false)
    | some mv =>
      let mv1 := { mv with status := ModelStatus.staging, updatedAt := s.clock }
      ({ s with
          registry := aset s.registry modelType (aset versions version mv1)
        , stagingVersions := aset s.stagingVersions modelType version
        , clock := s.clock + 1 }, true)

/-- The `# Archive current production version` block of
`promote_to_production`: when the production mapping names a non-empty,
stored version, set its status to Archived with a fresh timestamp
(`if current_prod and current_prod in self._registry[model_type]`). -/
def archiveCurrentProd (s : State) (modelType : String)
    (versions : List (String × ModelVersion)) : List (String × ModelVersion) :=
  match alookup s.productionVersions modelType with
  | none => versions
  | some currentProd =>
    if currentProd = "" then versions
    else
      match alookup versions currentProd with
      | none => versions
      | some cmv =>
        aset versions currentProd
          { cmv with status := ModelStatus.archived, updatedAt := s.clock }

/-- The `# Demote current production` block of `rollback`: same lookup as
`archiveCurrentProd` but the status becomes Deprecated. -/
def demoteCurrentProd (s : State) (modelType : String)
    (versions : List (String × ModelVersion)) : List (String × ModelVersion) :=
  match alookup s.productionVersions modelType with
  | none => versions
  | some currentProd =>
    if currentProd = "" then versions
    else
      match alookup versions currentProd with
      | none => versions
      | some cmv =>
        aset versions currentProd
          { cmv with status := ModelStatus.deprecated, updatedAt := s.clock }

/-- The field updates `promote_to_production` applies to the promoted version. -/
def promotedVersion (mv : ModelVersion) (clk : Nat) : ModelVersion :=
  { mv with
      status := ModelStatus.production
    , deployedAt := some clk
    , deploymentEnvironment := some "production"
    , updatedAt := clk }

/-- `ModelRegistry.promote_to_production`.  Archives the currently mapped
production version (when the mapping is a non-empty string naming a stored
version), then sets the target version to Production and updates the mapping.
Returns `false` without changing state when (model_type, version) is unknown. -/
def promoteToProduction (s : State) (modelType version : String) : State × Bool :=
  match alookup s.registry modelType with
  | none => (s, false)
  | some versions =>
    if (alookup versions version).isNone then (s, false)
    else
      let versions1 := archiveCurrentProd s modelType versions
      match alookup versions1 version with
      | none => (s, false)
      | some mv =>
        ({ s with
            registry := aset s.registry modelType
              (aset versions1 version (promotedVersion mv s.clock))
          , productionVersions := aset s.productionVersions modelType version
          , clock := s.clock + 1 }, true)

/-- Head of `archived.sort(key=updated_at, reverse=True)`: the element with the
maximal `updated_at`, the earliest-listed one on ties (Python's sort is
stable). -/
def mostRecent : List ModelVersion → Option ModelVersion
  | [] => none
  | x :: xs =>
    match mostRecent xs with
    | none => some x
    | some y => if y.updatedAt > x.updatedAt then some y else some x

/-- `ModelRegistry.rollback`: picks the most recently archived version, demotes
the mapped production version to Deprecated, promotes the archived one back to
Production and remaps.  Returns `none` (the `NoRollbackTarget` outcome) when
the model type is unknown or no archived version exists. -/
def rollback (s : State) (modelType : String) : State × Option String :=
  match alookup s.registry modelType with
  | none => (s, none)
  | some versions =>
    let archived := (versions.map Prod.snd).filter
      (fun mv => mv.status = ModelStatus.archived)
    match mostRecent archived with
    | none => (s, none)
    | some rb =>
      let versions1 := demoteCurrentProd s modelType versions
      let rb1 := { rb with
          status := ModelStatus.production
        , deployedAt := some s.clock
        , updatedAt := s.clock }
      ({ s with
          registry := aset s.registry modelType (aset versions1 rb.version rb1)
        , productionVersions := aset s.productionVersions modelType rb.version
        , clock := s.clock + 1 }, some rb.version)

/-- `ModelRegistry.get_production_version`. -/
def getProductionVersion (s : State) (modelType : String) : Option String :=
  alookup s.productionVersions modelType

/-- Structural well-formedness of a registry state, phrased over list
membership so it is decidable on concrete states: association keys are
duplicate-free, stored versions are named by their keys, every timestamp is in
the past of the logical clock, and any version with status Production is the
one named by the production mapping (with a non-empty name). -/
def Inv (s : State) : Prop :=
  (s.registry.map Prod.fst).Nodup ∧
  (∀ e ∈ s.registry, ((e.2.map Prod.fst).Nodup ∧
    ∀ ve ∈ e.2, ve.2.version = ve.1 ∧ ve.2.updatedAt < s.clock ∧
      (ve.2.status = ModelStatus.production →
        alookup s.productionVersions e.1 = some ve.1 ∧ ve.1 ≠ "")))

instance (s : State) : Decidable (Inv s) := by
  unfold Inv
  infer_instance

end Registry

namespace Registry

theorem mostRecent_mem : ∀ {l : List ModelVersion} {x : ModelVersion},
    mostRecent l = some x → x ∈ l := by
  intro l
  induction l with
  | nil => intro x h; simp [mostRecent] at h
  | cons z rest ih =>
      intro x h
      cases hmr : mostRecent rest with
      | none =>
          rw [mostRecent, hmr] at h
          simp at h
          simp [h]
      | some y =>
          rw [mostRecent, hmr] at h
          by_cases hgt : y.updatedAt > z.updatedAt
          · simp [hgt] at h
            exact List.mem_cons_of_mem _ (h ▸ ih hmr)
          · simp [hgt] at h
            simp [h]

theorem mostRecent_eq_of_unique_max {l : List ModelVersion} {x : ModelVersion}
    (hx : x ∈ l) (hmax : ∀ y ∈ l, y ≠ x → y.updatedAt < x.updatedAt) :
    mostRecent l = some x := by
  induction l with
  | nil => cases hx
  | cons z rest ih =>
      by_cases hxr : x ∈ rest
      · have hmr := ih hxr (fun y hy => hmax y (List.mem_cons_of_mem _ hy))
        by_cases hzx : z = x
        · subst hzx
          simp [mostRecent, hmr]
        · have hlt := hmax z (List.mem_cons_self _ _) hzx
          simp [mostRecent, hmr, hlt]
      · have hzx : z = x := by
          rcases List.mem_cons.mp hx with h | h
          · exact h.symm
          · exact absurd h hxr
        subst hzx
        cases hmr : mostRecent rest with
        | none => simp [mostRecent, hmr]
        | some y =>
            have hy := mostRecent_mem hmr
            have hyx : y ≠ z := fun h => hxr (h ▸ hy)
            have hlt := hmax y (List.mem_cons_of_mem _ hy) hyx
            simp [mostRecent, hmr, not_lt.mpr (le_of_lt hlt)]

theorem filter_length_eq_one {α β : Type} [DecidableEq α] {l : List (α × β)}
    (p : α × β → Bool) (k : α)
    (hnd : (l.map Prod.fst).Nodup) (hk : k ∈ l.map Prod.fst)
    (hiff : ∀ e ∈ l, p e = true ↔ e.1 = k) :
    (l.filter p).length = 1 := by
  induction l with
  | nil => simp at hk
  | cons e rest ih =>
      simp only [List.map_cons, List.nodup_cons] at hnd
      by_cases he : e.1 = k
      · have hpe : p e = true := (hiff e (List.mem_cons_self _ _)).mpr he
        have hrest : ∀ a ∈ rest, ¬ p a = true := by
          intro a ha hpa
          have hak := (hiff a (List.mem_cons_of_mem _ ha)).mp hpa
          exact hnd.1 (by
            have : a.1 ∈ rest.map Prod.fst := List.mem_map_of_mem Prod.fst ha
            rwa [hak, ← he] at this)
        rw [List.filter_cons_of_pos hpe, List.filter_eq_nil_iff.mpr hrest]
        rfl
      · have hpe : ¬ p e = true := fun hp => he ((hiff e (List.mem_cons_self _ _)).mp hp)
        have hk' : k ∈ rest.map Prod.fst := by
          rcases List.mem_cons.mp hk with h | h
          · exact absurd h.symm he
          · exact h
        rw [List.filter_cons_of_neg hpe]
        exact ih hnd.2 hk' (fun a ha => hiff a (List.mem_cons_of_mem _ ha))

end Registry

/-- C1 counterexample: `register_model` does not fail with DuplicateVersion
when (model_type, version) already exists.  After registering
("completion", "v1") once, a second `register_model` call for the same pair
returns normally and silently overwrites the stored entry (the version table
still has a single "v1" row, now carrying the second call's data). -/
theorem C1_register_duplicate_counterexample :
    (let s1 := (Registry.registerModel Registry.initial "completion" "model-a" "v1"
      [("accuracy", 1)] 100 1 "" [] [] none).1
    let s2 := (Registry.registerModel s1 "completion" "model-b" "v1"
      [("accuracy", 2)] 50 2 "" [] [] none).1
    (alookup (Registry.versionsOf s1 "completion") "v1").isSome = true ∧
    Registry.statusOf s2 "completion" "v1" = some Registry.ModelStatus.registered ∧
    (alookup (Registry.versionsOf s2 "completion") "v1").map Registry.ModelVersion.metrics
      = some [("accuracy", 2)] ∧
    (Registry.versionsOf s2 "completion").length = 1) := by
  decide

/-- C1 (amended): `register_model` never fails — for every prior state,
including one where (modelType, version) already exists, it inserts (or
silently overwrites) the version with status Registered carrying the given
data, writes the lineage record under "modelType:version", and persists the
pickled artifact under the model path. -/
theorem C1_register_inserts_lineage_artifact
    (s : Registry.State) (modelType model version : String)
    (metrics : List (String × ℚ)) (trainingSamples : Nat) (trainingDuration : ℚ)
    (trainingDataHash : String) (featureNames : List String)
    (trainingConfig : List (String × String)) (parentVersion : Option String) :
    (let r := Registry.registerModel s modelType model version metrics trainingSamples
        trainingDuration trainingDataHash featureNames trainingConfig parentVersion
    alookup (Registry.versionsOf r.1 modelType) version = some r.2 ∧
    r.2.status = Registry.ModelStatus.registered ∧
    r.2.metrics = metrics ∧
    r.2.version = version ∧
    r.2.modelType = modelType ∧
    r.2.parentVersion = parentVersion ∧
    (alookup r.1.lineage (modelType ++ ":" ++ version)).map
      Registry.ModelLineage.parentVersion = some parentVersion ∧
    (alookup r.1.lineage (modelType ++ ":" ++ version)).map
      Registry.ModelLineage.trainingDataHash = some trainingDataHash ∧
    (alookup r.1.lineage (modelType ++ ":" ++ version)).map
      Registry.ModelLineage.hyperparameters = some trainingConfig ∧
    alookup r.1.artifacts (Registry.modelPathOf modelType version) = some model) := by
  refine ⟨?_, rfl, rfl, rfl, rfl, rfl, ?_, ?_, ?_, ?_⟩ <;>
    simp [Registry.registerModel, Registry.versionsOf, alookup_aset_self]

/-- C2 counterexample: promoting the version that is already Production
succeeds but leaves that version with status Production, not Archived, even
though it is "the version that held Production before the call".  Registry:
register ("completion", "v1"), promote it, then promote it again. -/
theorem C2_promote_counterexample :
    (let s1 := (Registry.registerModel Registry.initial "completion" "m" "v1"
      [] 10 1 "" [] [] none).1
    let s2 := (Registry.promoteToProduction s1 "completion" "v1").1
    Registry.getProductionVersion s2 "completion" = some "v1" ∧
    Registry.statusOf s2 "completion" "v1" = some Registry.ModelStatus.production ∧
    (Registry.promoteToProduction s2 "completion" "v1").2 = true ∧
    Registry.statusOf (Registry.promoteToProduction s2 "completion" "v1").1
      "completion" "v1" = some Registry.ModelStatus.production ∧
    Registry.statusOf (Registry.promoteToProduction s2 "completion" "v1").1
      "completion" "v1" ≠ some Registry.ModelStatus.archived) := by
  decide

/-- Helper for C2: once no entry of the table has status Production, writing a
Production-status record under key v makes v the unique Production entry. -/
theorem Registry.table_after_promote
    {versions1 : List (String × Registry.ModelVersion)} {v : String}
    {vnew : Registry.ModelVersion}
    (hnd : (versions1.map Prod.fst).Nodup)
    (hnp : ∀ e ∈ versions1, e.2.status ≠ Registry.ModelStatus.production)
    (hstat : vnew.status = Registry.ModelStatus.production) :
    (∀ e ∈ aset versions1 v vnew,
      e.2.status = Registry.ModelStatus.production ↔ e.1 = v) ∧
    ((aset versions1 v vnew).filter
      (fun e => decide (e.2.status = Registry.ModelStatus.production))).length = 1 := by
  have hiff : ∀ e ∈ aset versions1 v vnew,
      e.2.status = Registry.ModelStatus.production ↔ e.1 = v := by
    intro e he
    rcases (mem_aset_iff _ _ hnd e).mp he with rfl | ⟨hmem, hne⟩
    · simp [hstat]
    · constructor
      · intro hst; exact absurd hst (hnp e hmem)
      · intro h; exact absurd h hne
  refine ⟨hiff, ?_⟩
  refine Registry.filter_length_eq_one _ v (nodup_keys_aset _ _ _ hnd) ?_ ?_
  · exact List.mem_map_of_mem Prod.fst
      (mem_of_alookup_eq_some (alookup_aset_self versions1 v vnew))
  · intro e he
    simpa using hiff e he

/-- C2 (amended): in any well-formed registry state, promoting a registered
version v that is not already the mapped production version succeeds, after
which exactly one version of that model type has status Production — namely v,
which is also recorded in the production mapping — and every version that held
status Production before the call now has status Archived. -/
theorem C2_promote_unique_production
    (s : Registry.State) (t v : String)
    (hinv : Registry.Inv s)
    (hv : (alookup (Registry.versionsOf s t) v).isSome = true)
    (hprev : Registry.getProductionVersion s t ≠ some v) :
    (let r := Registry.promoteToProduction s t v
    r.2 = true ∧
    Registry.getProductionVersion r.1 t = some v ∧
    Registry.statusOf r.1 t v = some Registry.ModelStatus.production ∧
    (∀ e ∈ Registry.versionsOf r.1 t,
      e.2.status = Registry.ModelStatus.production ↔ e.1 = v) ∧
    ((Registry.versionsOf r.1 t).filter
      (fun e => decide (e.2.status = Registry.ModelStatus.production))).length = 1 ∧
    (∀ p mp, alookup (Registry.versionsOf s t) p = some mp →
      mp.status = Registry.ModelStatus.production →
      Registry.statusOf r.1 t p = some Registry.ModelStatus.archived)) := by
  obtain ⟨mv, hmv⟩ := Option.isSome_iff_exists.mp hv
  have hreg : ∃ versions, alookup s.registry t = some versions := by
    cases hq : alookup s.registry t with
    | none => rw [Registry.versionsOf, hq] at hmv; simp [alookup] at hmv
    | some versions => exact ⟨versions, rfl⟩
  obtain ⟨versions, hregt⟩ := hreg
  have hver : alookup versions v = some mv := by
    rw [Registry.versionsOf, hregt] at hmv; exact hmv
  obtain ⟨hndreg, hinv2⟩ := hinv
  obtain ⟨hndver, hprops⟩ := hinv2 (t, versions) (mem_of_alookup_eq_some hregt)
  have hprod_old : ∀ e ∈ versions, e.2.status = Registry.ModelStatus.production →
      alookup s.productionVersions t = some e.1 ∧ e.1 ≠ "" := by
    intro e he hst
    exact ((hprops e he).2.2) hst
  -- Characterise the archive step: it yields a table with the same keys
  -- in which no entry is Production, still containing (v, mv), and in which
  -- every previously-Production key is Archived.
  have harch : ∃ versions1 : List (String × Registry.ModelVersion),
      Registry.archiveCurrentProd s t versions = versions1 ∧
      alookup versions1 v = some mv ∧
      (versions1.map Prod.fst).Nodup ∧
      (∀ e ∈ versions1, e.2.status ≠ Registry.ModelStatus.production) ∧
      (∀ p mp, alookup versions p = some mp →
        mp.status = Registry.ModelStatus.production →
        alookup versions1 p = some
          { mp with status := Registry.ModelStatus.archived, updatedAt := s.clock }) := by
    cases hmap : alookup s.productionVersions t with
    | none =>
        refine ⟨versions, by simp [Registry.archiveCurrentProd, hmap], hver, hndver, ?_, ?_⟩
        · intro e he hst
          have h1 := (hprod_old e he hst).1
          rw [hmap] at h1; cases h1
        · intro p mp hp hst
          have h1 := (hprod_old (p, mp) (mem_of_alookup_eq_some hp) hst).1
          rw [hmap] at h1; cases h1
    | some cp =>
        by_cases hcpe : cp = ""
        · refine ⟨versions, by simp [Registry.archiveCurrentProd, hmap, hcpe], hver,
            hndver, ?_, ?_⟩
          · intro e he hst
            have h1 := hprod_old e he hst
            rw [hmap] at h1
            have he1 : e.1 = cp := by cases h1.1; rfl
            exact h1.2 (he1.trans hcpe)
          · intro p mp hp hst
            have h1 := hprod_old (p, mp) (mem_of_alookup_eq_some hp) hst
            rw [hmap] at h1
            have he1 : p = cp := by cases h1.1; rfl
            exact absurd (he1.trans hcpe) h1.2
        · cases hcp : alookup versions cp with
          | none =>
              refine ⟨versions, by simp [Registry.archiveCurrentProd, hmap, hcpe, hcp],
                hver, hndver, ?_, ?_⟩
              · intro e he hst
                have h1 := hprod_old e he hst
                rw [hmap] at h1
                have he1 : e.1 = cp := by cases h1.1; rfl
                have hm : alookup versions cp = some e.2 := by
                  rw [← he1]
                  exact alookup_eq_some_of_mem hndver (by simpa using he)
                rw [hcp] at hm; cases hm
              · intro p mp hp hst
                have h1 := hprod_old (p, mp) (mem_of_alookup_eq_some hp) hst
                rw [hmap] at h1
                have he1 : p = cp := by cases h1.1; rfl
                rw [he1, hcp] at hp; cases hp
          | some cmv =>
              have hcpv : cp ≠ v := by
                intro h
                rw [Registry.getProductionVersion, hmap, h] at hprev
                exact hprev rfl
              refine ⟨aset versions cp
                  { cmv with status := Registry.ModelStatus.archived, updatedAt := s.clock },
                by simp [Registry.archiveCurrentProd, hmap, hcpe, hcp], ?_, ?_, ?_, ?_⟩
              · exact (alookup_aset_ne versions cp _ v (fun h => hcpv h.symm)).trans hver
              · exact nodup_keys_aset _ _ _ hndver
              · intro e he hst
                rcases (mem_aset_iff _ _ hndver e).mp he with rfl | ⟨hmem, hne⟩
                · simp at hst
                · have h1 := hprod_old e hmem hst
                  rw [hmap] at h1
                  have he1 : e.1 = cp := by cases h1.1; rfl
                  exact hne he1
              · intro p mp hp hst
                have h1 := hprod_old (p, mp) (mem_of_alookup_eq_some hp) hst
                rw [hmap] at h1
                have he1 : p = cp := by cases h1.1; rfl
                subst he1
                have hcmv : cmv = mp := by rw [hp] at hcp; cases hcp; rfl
                rw [alookup_aset_self, hcmv]
  obtain ⟨versions1, harcheq, hver1, hnd1, hnp1, harchived⟩ := harch
  have hrun : Registry.promoteToProduction s t v =
      ({ s with
          registry := aset s.registry t
            (aset versions1 v (Registry.promotedVersion mv s.clock))
        , productionVersions := aset s.productionVersions t v
        , clock := s.clock + 1 }, true) := by
    simp [Registry.promoteToProduction, hregt, hver, harcheq, hver1]
  have htab := @Registry.table_after_promote versions1 v
    (Registry.promotedVersion mv s.clock) hnd1 hnp1 rfl
  simp only [hrun]
  refine ⟨trivial, ?_, ?_, ?_, ?_, ?_⟩
  · exact alookup_aset_self _ _ _
  · simp [Registry.statusOf, Registry.versionsOf, alookup_aset_self,
      Registry.promotedVersion]
  · simp only [Registry.versionsOf, alookup_aset_self, Option.getD_some]
    exact htab.1
  · simp only [Registry.versionsOf, alookup_aset_self, Option.getD_some]
    exact htab.2
  · intro p mp hp hst
    have hpv : p ≠ v := by
      intro h
      subst h
      have h1 := hprod_old (p, mp)
        (mem_of_alookup_eq_some (by rw [Registry.versionsOf, hregt] at hp; exact hp)) hst
      exact hprev (h1.1)
    simp only [Registry.statusOf, Registry.versionsOf, alookup_aset_self, Option.getD_some]
    rw [alookup_aset_ne _ _ _ _ hpv]
    rw [Registry.versionsOf, hregt] at hp
    rw [harchived p mp hp hst]
    rfl

/-- C2 witness: a concrete run of the amended theorem.  Register v1 and v2 for
"completion", promote v1; the state satisfies the invariant, v2 is registered
and not the mapped production version, so promoting v2 yields exactly one
Production version (v2) and archives v1. -/
theorem C2_promote_unique_production_witness :
    (let s1 := (Registry.registerModel Registry.initial "completion" "m1" "v1"
      [] 10 1 "" [] [] none).1
    let s2 := (Registry.registerModel s1 "completion" "m2" "v2"
      [] 10 1 "" [] [] none).1
    let s3 := (Registry.promoteToProduction s2 "completion" "v1").1
    Registry.Inv s3 ∧
    (alookup (Registry.versionsOf s3 "completion") "v2").isSome = true ∧
    Registry.getProductionVersion s3 "completion" ≠ some "v2" ∧
    (let r := Registry.promoteToProduction s3 "completion" "v2";
    r.2 = true ∧
    Registry.getProductionVersion r.1 "completion" = some "v2" ∧
    Registry.statusOf r.1 "completion" "v2" = some Registry.ModelStatus.production ∧
    (∀ e ∈ Registry.versionsOf r.1 "completion",
      e.2.status = Registry.ModelStatus.production ↔ e.1 = "v2") ∧
    ((Registry.versionsOf r.1 "completion").filter
      (fun e => decide (e.2.status = Registry.ModelStatus.production))).length = 1 ∧
    (∀ p mp, alookup (Registry.versionsOf s3 "completion") p = some mp →
      mp.status = Registry.ModelStatus.production →
      Registry.statusOf r.1 "completion" p = some Registry.ModelStatus.archived))) := by
  refine ⟨by decide, by decide, by decide, ?_⟩
  exact C2_promote_unique_production _ "completion" "v2" (by decide) (by decide) (by decide)

/-- C3: registry rollback undoes the most recent promotion.  In any
well-formed state where v1 is the Production version of a model type and a
distinct registered version v2 (with a non-empty name) is then promoted,
`rollback` returns v1, restores v1 to Production (also in the production
mapping) and demotes v2 to Deprecated; and on any state with no archived
version of the model type, `rollback` returns `none` (the NoRollbackTarget
outcome). -/
theorem C3_rollback_inverts_promote
    (s : Registry.State) (t v1 v2 : String)
    (hinv : Registry.Inv s)
    (hprod : Registry.getProductionVersion s t = some v1)
    (hst1 : Registry.statusOf s t v1 = some Registry.ModelStatus.production)
    (hv2 : (alookup (Registry.versionsOf s t) v2).isSome = true)
    (hne : v1 ≠ v2)
    (hv2e : v2 ≠ "") :
    ((Registry.promoteToProduction s t v2).2 = true ∧
    (let r := Registry.rollback (Registry.promoteToProduction s t v2).1 t
    r.2 = some v1 ∧
    Registry.getProductionVersion r.1 t = some v1 ∧
    Registry.statusOf r.1 t v1 = some Registry.ModelStatus.production ∧
    Registry.statusOf r.1 t v2 = some Registry.ModelStatus.deprecated)) ∧
    (∀ s0 : Registry.State, ∀ t0 : String,
      (∀ e ∈ Registry.versionsOf s0 t0, e.2.status ≠ Registry.ModelStatus.archived) →
      (Registry.rollback s0 t0).2 = none) := by
  constructor
  · -- The scenario part.
    obtain ⟨mv2, hmv2⟩ := Option.isSome_iff_exists.mp hv2
    have hreg : ∃ versions, alookup s.registry t = some versions := by
      cases hq : alookup s.registry t with
      | none => rw [Registry.versionsOf, hq] at hmv2; simp [alookup] at hmv2
      | some versions => exact ⟨versions, rfl⟩
    obtain ⟨versions, hregt⟩ := hreg
    have hver2 : alookup versions v2 = some mv2 := by
      rw [Registry.versionsOf, hregt] at hmv2; exact hmv2
    have hmap : alookup s.productionVersions t = some v1 := hprod
    obtain ⟨mv1, hmv1, hstat1⟩ : ∃ mv1, alookup versions v1 = some mv1 ∧
        mv1.status = Registry.ModelStatus.production := by
      simp only [Registry.statusOf, Registry.versionsOf, hregt, Option.getD_some] at hst1
      cases hq : alookup versions v1 with
      | none => rw [hq] at hst1; cases hst1
      | some mv1 =>
          rw [hq] at hst1
          exact ⟨mv1, rfl, by injection hst1⟩
    obtain ⟨hndreg, hinv2⟩ := hinv
    obtain ⟨hndver, hprops⟩ := hinv2 (t, versions) (mem_of_alookup_eq_some hregt)
    have hp1 := hprops (v1, mv1) (mem_of_alookup_eq_some hmv1)
    have hv1name : mv1.version = v1 := hp1.1
    have hv1e : v1 ≠ "" := (hp1.2.2 hstat1).2
    -- Names for the records produced along the way.
    set amv1 := { mv1 with status := Registry.ModelStatus.archived, updatedAt := s.clock }
      with hamv1
    set pv2 := Registry.promotedVersion mv2 s.clock with hpv2
    set vtab1 := aset versions v1 amv1 with hvtab1
    set vtab2 := aset vtab1 v2 pv2 with hvtab2
    have hv2v1 : v2 ≠ v1 := fun h => hne h.symm
    -- Run the promotion.
    have harch : Registry.archiveCurrentProd s t versions = vtab1 := by
      simp [Registry.archiveCurrentProd, hmap, hv1e, hmv1]
    have hver2a : alookup vtab1 v2 = some mv2 :=
      (alookup_aset_ne versions v1 amv1 v2 hv2v1).trans hver2
    have hrun1 : Registry.promoteToProduction s t v2 =
        ({ s with
            registry := aset s.registry t vtab2,
            productionVersions := aset s.productionVersions t v2,
            clock := s.clock + 1 }, true) := by
      simp [Registry.promoteToProduction, hregt, hver2, harch, hver2a, hvtab2]
    refine ⟨by rw [hrun1], ?_⟩
    simp only [hrun1]
    -- The state after promotion.
    have hnd1 : (vtab1.map Prod.fst).Nodup := nodup_keys_aset _ _ _ hndver
    -- The archived list of the new table has amv1 as its unique freshest entry.
    have hmem1 : (v1, amv1) ∈ vtab2 := by
      rw [hvtab2]
      refine (mem_aset_iff _ _ hnd1 _).mpr (Or.inr ⟨?_, hne⟩)
      exact mem_of_alookup_eq_some (alookup_aset_self versions v1 amv1)
    have hmr : Registry.mostRecent
        ((vtab2.map Prod.snd).filter
          (fun mv => mv.status = Registry.ModelStatus.archived)) = some amv1 := by
      apply Registry.mostRecent_eq_of_unique_max
      · apply List.mem_filter.mpr
        refine ⟨List.mem_map_of_mem Prod.snd hmem1, by simp [hamv1]⟩
      · intro y hy hyne
        obtain ⟨hymem, hyarch⟩ := List.mem_filter.mp hy
        obtain ⟨e, he, rfl⟩ := List.mem_map.mp hymem
        rcases (mem_aset_iff _ _ hnd1 e).mp (hvtab2 ▸ he) with rfl | ⟨he1, hne1⟩
        · simp [hpv2, Registry.promotedVersion] at hyarch
        · rcases (mem_aset_iff _ _ hndver e).mp he1 with rfl | ⟨he2, hne2⟩
          · exact absurd rfl hyne
          · have := (hprops e he2).2.1
            simpa [hamv1] using this
    -- The demotion step of rollback hits v2.
    have hdem : Registry.demoteCurrentProd
        { s with
            registry := aset s.registry t vtab2,
            productionVersions := aset s.productionVersions t v2,
            clock := s.clock + 1 } t vtab2 =
        aset vtab2 v2 { pv2 with status := Registry.ModelStatus.deprecated,
                                 updatedAt := s.clock + 1 } := by
      have hv2look : alookup vtab2 v2 = some pv2 := by
        rw [hvtab2]; exact alookup_aset_self _ _ _
      simp [Registry.demoteCurrentProd, alookup_aset_self, hv2look, hv2e]
    have hrbv : amv1.version = v1 := by rw [hamv1]; exact hv1name
    have hv2name : v2 ≠ mv1.version := by rw [hv1name]; exact hv2v1
    refine ⟨?_, ?_, ?_, ?_⟩ <;>
      simp [Registry.rollback, Registry.getProductionVersion, Registry.statusOf,
        Registry.versionsOf, alookup_aset_self, hmr, hdem, hrbv, alookup_aset, hv2v1,
        hv1name, hv2name]
  · -- The NoRollbackTarget part: no archived version means rollback yields none.
    intro s0 t0 hnoarch
    cases hq : alookup s0.registry t0 with
    | none => simp [Registry.rollback, hq]
    | some versions0 =>
        have h0 : (versions0.map Prod.snd).filter
            (fun mv => mv.status = Registry.ModelStatus.archived) = [] := by
          apply List.filter_eq_nil_iff.mpr
          intro a ha
          obtain ⟨e, he, rfl⟩ := List.mem_map.mp ha
          have := hnoarch e (by rw [Registry.versionsOf, hq]; simpa using he)
          simpa using this
        simp [Registry.rollback, hq, h0, Registry.mostRecent]

/-- C3 witness: concrete run of the rollback theorem.  Register v1 and v2,
promote v1; the hypotheses hold, so promoting v2 and rolling back restores v1
and deprecates v2. -/
theorem C3_rollback_inverts_promote_witness :
    (let s1 := (Registry.registerModel Registry.initial "completion" "m1" "v1"
      [] 10 1 "" [] [] none).1
    let s2 := (Registry.registerModel s1 "completion" "m2" "v2"
      [] 10 1 "" [] [] none).1
    let s3 := (Registry.promoteToProduction s2 "completion" "v1").1
    Registry.Inv s3 ∧
    Registry.getProductionVersion s3 "completion" = some "v1" ∧
    Registry.statusOf s3 "completion" "v1" = some Registry.ModelStatus.production ∧
    (alookup (Registry.versionsOf s3 "completion") "v2").isSome = true ∧
    ("v1" : String) ≠ "v2" ∧ ("v2" : String) ≠ "" ∧
    (((Registry.promoteToProduction s3 "completion" "v2").2 = true ∧
    (let r := Registry.rollback (Registry.promoteToProduction s3 "completion" "v2").1
      "completion"
    r.2 = some "v1" ∧
    Registry.getProductionVersion r.1 "completion" = some "v1" ∧
    Registry.statusOf r.1 "completion" "v1" = some Registry.ModelStatus.production ∧
    Registry.statusOf r.1 "completion" "v2" = some Registry.ModelStatus.deprecated)) ∧
    (∀ s0 : Registry.State, ∀ t0 : String,
      (∀ e ∈ Registry.versionsOf s0 t0, e.2.status ≠ Registry.ModelStatus.archived) →
      (Registry.rollback s0 t0).2 = none))) := by
  refine ⟨by decide, by decide, by decide, by decide, by decide, by decide, ?_⟩
  exact C3_rollback_inverts_promote _ "completion" "v1" "v2" (by decide) (by decide)
    (by decide) (by decide) (by decide) (by decide)

/-! ## Blue-Green Deployment Manager (src/src/ml/deployment/blue_green_deployer.py) -/

namespace Deploy

/-- Enum `DeploymentStatus` from blue_green_deployer.py. -/
inductive DeploymentStatus where
  | pending
  | deploying
  | active
  | draining
  | inactive
  | failed
  | rolledBack
deriving DecidableEq, Repr

/-- Dataclass `DeploymentState` (one slot of one model type).  Slots are the
enum value strings "blue"/"green"; weights are exact rationals. -/
structure DeploymentState where
  slot : String
  modelType : String
  version : Option String
  status : DeploymentStatus
  trafficWeight : ℚ
  deployedAt : Option Nat
  healthStatus : String
  lastHealthCheck : Option Nat
  errorMessage : Option String
deriving DecidableEq, Repr

/-- Dataclass `TrafficConfig`. -/
structure TrafficConfig where
  blueWeight : ℚ
  greenWeight : ℚ
  updatedAt : Nat
deriving DecidableEq, Repr

/-- Dataclass `DeploymentHistory` (audit log entry); wall-clock durations are
not modelled and recorded as 0. -/
structure DeploymentHistory where
  action : String
  modelType : String
  version : String
  slot : String
  timestamp : Nat
  status : String
  durationSeconds : ℚ
  error : Option String
deriving DecidableEq, Repr

/-- The in-memory state of `BlueGreenDeployer`: `_deployments` (model type →
slot name → DeploymentState), `_traffic_configs`, `_history`, plus the logical
clock. -/
structure State where
  deployments : List (String × List (String × DeploymentState))
  trafficConfigs : List (String × TrafficConfig)
  history : List DeploymentHistory
  clock : Nat
deriving DecidableEq, Repr

/-- A fresh deployer. -/
def initial : State :=
  { deployments := [], trafficConfigs := [], history := [], clock := 0 }

/-- Slots table of a model type (empty when the type is unknown). -/
def slotsOf (s : State) (modelType : String) : List (String × DeploymentState) :=
  (alookup s.deployments modelType).getD []

/-- The errors the deployer raises (all are `ValueError` in the source; the
constructors name the §7 error-taxonomy cases they correspond to). -/
inductive Err where
  | invalidWeights
  | noDeployments
  | noActiveStaging
  | noActiveDeployment
  | noValidRollbackTarget
deriving DecidableEq, Repr

/-- `BlueGreenDeployer._get_inactive_slot`: blue when the model type is new or
blue carries no traffic, green when blue's stored weight is positive.  Only
the blue slot's weight is consulted. -/
def getInactiveSlot (s : State) (modelType : String) : String :=
  match alookup s.deployments modelType with
  | none => "blue"
  | some slots =>
    match alookup slots "blue" with
    | some blueState => if blueState.trafficWeight > 0 then "green" else "blue"
    | none => "blue"

/-- `BlueGreenDeployer._get_active_slot`: the first slot (in dict insertion
order) whose traffic weight exceeds 0.5, as its slot-name string. -/
def getActiveSlot (s : State) (modelType : String) : Option String :=
  match alookup s.deployments modelType with
  | none => none
  | some slots =>
    (slots.find? (fun p => p.2.trafficWeight > 1/2)).map Prod.fst

/-- `BlueGreenDeployer.deploy_to_staging`.  Picks the inactive slot,
initialises the model type (with a blue=1.0/green=0.0 TrafficConfig) when it
is new, and stores the slot as Active with traffic weight 0.0 and health
"healthy".  `_simulate_deployment` only sleeps, so the failure branch of the
source is unreachable and the call always succeeds. -/
def deployToStaging (s : State) (modelType version : String) :
    State × DeploymentState :=
  let stagingSlot := getInactiveSlot s modelType
  let isNew := (alookup s.deployments modelType).isNone
  let deployments0 :=
    if isNew then aset s.deployments modelType [] else s.deployments
  let trafficConfigs0 :=
    if isNew then
      aset s.trafficConfigs modelType
        { blueWeight := 1, greenWeight := 0, updatedAt := s.clock }
    else s.trafficConfigs
  let st : DeploymentState :=
    { slot := stagingSlot
    , modelType := modelType
    , version := some version
    , status := DeploymentStatus.active
    , trafficWeight := 0
    , deployedAt := some s.clock
    , healthStatus := "healthy"
    , lastHealthCheck := some s.clock
    , errorMessage := none }
  let slots := (alookup deployments0 modelType).getD []
  ({ s with
      deployments := aset deployments0 modelType (aset slots stagingSlot st)
    , trafficConfigs := trafficConfigs0
    , history := s.history ++
        [{ action := "deploy_staging", modelType := modelType, version := version
         , slot := stagingSlot, timestamp := s.clock, status := "success"
         , durationSeconds := 0, error := none }]
    , clock := s.clock + 1 }, st)

/-- `BlueGreenDeployer.shift_traffic`.  With `validate` it raises
InvalidWeights when |blue + green − 1.0| > 0.001; raises NoDeployments for an
unknown model type; otherwise replaces the TrafficConfig and writes the two
weights into whichever of the blue/green slot states exist.  No history entry
is recorded (the source does not call `_record_history` here). -/
def shiftTraffic (s : State) (modelType : String) (blueWeight greenWeight : ℚ)
    (validate : Bool) : Except Err (State × TrafficConfig) :=
  if validate ∧ |blueWeight + greenWeight - 1| > 1/1000 then
    Except.error Err.invalidWeights
  else if (alookup s.deployments modelType).isNone then
    Except.error Err.noDeployments
  else
    let config : TrafficConfig :=
      { blueWeight := blueWeight, greenWeight := greenWeight, updatedAt := s.clock }
    let slots := (alookup s.deployments modelType).getD []
    let slots1 :=
      match alookup slots "blue" with
      | some bs => aset slots "blue" { bs with trafficWeight := blueWeight }
      | none => slots
    let slots2 :=
      match alookup slots1 "green" with
      | some gs => aset slots1 "green" { gs with trafficWeight := greenWeight }
      | none => slots1
    Except.ok
      ({ s with
          deployments := aset s.deployments modelType slots2
        , trafficConfigs := aset s.trafficConfigs modelType config
        , clock := s.clock + 1 }, config)

/-- One iteration of the gradual-promotion loop of `promote_to_production`:
step i of `steps` sets the staging slot's weight to i/steps and the other
slot's to 1 − i/steps via `shift_traffic`. -/
def gradualStep (modelType stagingSlot : String) (steps : Nat) (s : State)
    (i : Nat) : Except Err State :=
  let stagingWeight : ℚ := (i : ℚ) / (steps : ℚ)
  let productionWeight : ℚ := 1 - stagingWeight
  if stagingSlot = "blue" then
    (shiftTraffic s modelType stagingWeight productionWeight true).map Prod.fst
  else
    (shiftTraffic s modelType productionWeight stagingWeight true).map Prod.fst

/-- The first `upto` iterations of the gradual loop (`for i in
range(1, steps + 1)`), stopping at the first failure as the source does. -/
def gradualShifts (modelType stagingSlot : String) (steps : Nat) (s : State)
    (upto : Nat) : Except Err State :=
  (List.range' 1 upto).foldlM (gradualStep modelType stagingSlot steps) s

/-- `BlueGreenDeployer.promote_to_production`.  Identifies the staging
(inactive) and production (active) slots, requires the staging slot to exist
with status Active (NoActiveStaging otherwise), performs the gradual or
immediate traffic shift, then marks the staging slot Active and the prior
production slot Draining and records history.  The commented-out sleep between
steps is not modelled. -/
def promoteToProduction (s : State) (modelType : String) (gradual : Bool)
    (steps : Nat) : Except Err State :=
  let stagingSlot := getInactiveSlot s modelType
  let productionSlot := getActiveSlot s modelType
  if (alookup s.deployments modelType).isNone then
    Except.error Err.noDeployments
  else
    match alookup (slotsOf s modelType) stagingSlot with
    | none => Except.error Err.noActiveStaging
    | some stagingState =>
      if stagingState.status ≠ DeploymentStatus.active then
        Except.error Err.noActiveStaging
      else
        (do
          let s1 ←
            if gradual then gradualShifts modelType stagingSlot steps s steps
            else if stagingSlot = "blue" then
              (shiftTraffic s modelType 1 0 true).map Prod.fst
            else
              (shiftTraffic s modelType 0 1 true).map Prod.fst
          let slots1 := (alookup s1.deployments modelType).getD []
          let slots2 :=
            match alookup slots1 stagingSlot with
            | some st => aset slots1 stagingSlot
                { st with status := DeploymentStatus.active }
            | none => slots1
          let slots3 :=
            match productionSlot with
            | none => slots2
            | some prodSlot =>
              match alookup slots2 prodSlot with
              | some ps => aset slots2 prodSlot
                  { ps with status := DeploymentStatus.draining }
              | none => slots2
          Except.ok
            { s1 with
                deployments := aset s1.deployments modelType slots3
              , history := s1.history ++
                  [{ action := "promote_production", modelType := modelType
                   , version := stagingState.version.getD ""
                   , slot := stagingSlot, timestamp := s1.clock
                   , status := "success", durationSeconds := 0, error := none }]
              , clock := s1.clock + 1 })

/-- `BlueGreenDeployer.get_traffic_config`. -/
def getTrafficConfig (s : State) (modelType : String) : Option TrafficConfig :=
  alookup s.trafficConfigs modelType

end Deploy

/-- C4: for a model type with existing deployments, `shift_traffic` with
validation on fails with InvalidWeights exactly when |blue + green − 1.0|
exceeds 1e-3 (raising before any mutation, so state is unchanged), and every
valid call produces a TrafficConfig holding exactly the requested weights
(hence summing to 1.0 within 1e-3) and stores blueWeight into the blue slot's
weight field and greenWeight into the green slot's, leaving their other fields
intact. -/
theorem C4_shift_traffic_weights
    (s : Deploy.State) (t : String) (bw gw : ℚ)
    (hdep : (alookup s.deployments t).isSome = true) :
    (|bw + gw - 1| > 1/1000 →
      Deploy.shiftTraffic s t bw gw true = Except.error Deploy.Err.invalidWeights) ∧
    (|bw + gw - 1| ≤ 1/1000 →
      ∃ s' config, Deploy.shiftTraffic s t bw gw true = Except.ok (s', config) ∧
        config.blueWeight = bw ∧
        config.greenWeight = gw ∧
        |config.blueWeight + config.greenWeight - 1| ≤ 1/1000 ∧
        Deploy.getTrafficConfig s' t = some config ∧
        alookup (Deploy.slotsOf s' t) "blue" =
          (alookup (Deploy.slotsOf s t) "blue").map
            (fun bs => { bs with trafficWeight := bw }) ∧
        alookup (Deploy.slotsOf s' t) "green" =
          (alookup (Deploy.slotsOf s t) "green").map
            (fun gs => { gs with trafficWeight := gw })) := by
  constructor
  · intro hgt
    unfold Deploy.shiftTraffic
    rw [if_pos ⟨rfl, hgt⟩]
  · intro hle
    obtain ⟨slots, hslots⟩ := Option.isSome_iff_exists.mp hdep
    have hnotgt : ¬ (|bw + gw - 1| > 1/1000) := not_lt.mpr hle
    have hle1000 : |bw + gw - 1| ≤ (1000 : ℚ)⁻¹ := le_trans hle (by norm_num)
    have hslotsOf : Deploy.slotsOf s t = slots := by
      rw [Deploy.slotsOf, hslots]; rfl
    cases hb : alookup slots "blue" with
    | none =>
        cases hg : alookup slots "green" with
        | none =>
            have hrun : Deploy.shiftTraffic s t bw gw true = Except.ok
                ({ s with
                    deployments := aset s.deployments t slots,
                    trafficConfigs := aset s.trafficConfigs t
                      { blueWeight := bw, greenWeight := gw, updatedAt := s.clock },
                    clock := s.clock + 1 },
                 { blueWeight := bw, greenWeight := gw, updatedAt := s.clock }) := by
              simp [Deploy.shiftTraffic, hnotgt, hle1000, hslots, hb, hg]
            refine ⟨_, _, hrun, rfl, rfl, le_trans hle (by norm_num), ?_, ?_, ?_⟩
            · exact alookup_aset_self _ _ _
            · simp [Deploy.slotsOf, alookup_aset_self, hslots, hb]
            · simp [Deploy.slotsOf, alookup_aset_self, hslots, hg]
        | some gs =>
            have hrun : Deploy.shiftTraffic s t bw gw true = Except.ok
                ({ s with
                    deployments := aset s.deployments t
                      (aset slots "green" { gs with trafficWeight := gw }),
                    trafficConfigs := aset s.trafficConfigs t
                      { blueWeight := bw, greenWeight := gw, updatedAt := s.clock },
                    clock := s.clock + 1 },
                 { blueWeight := bw, greenWeight := gw, updatedAt := s.clock }) := by
              simp [Deploy.shiftTraffic, hnotgt, hle1000, hslots, hb, hg]
            refine ⟨_, _, hrun, rfl, rfl, le_trans hle (by norm_num), ?_, ?_, ?_⟩
            · exact alookup_aset_self _ _ _
            · simp [Deploy.slotsOf, alookup_aset_self, hslots, hb,
                alookup_aset_ne _ "green" _ "blue" (by decide)]
            · simp [Deploy.slotsOf, alookup_aset_self, hslots, hg]
    | some bs =>
        have hg1 : ∀ x, alookup slots "green" = x →
            alookup (aset slots "blue" { bs with trafficWeight := bw }) "green" = x := by
          intro x hx
          rw [alookup_aset_ne _ _ _ _ (by decide)]
          exact hx
        cases hg : alookup slots "green" with
        | none =>
            have hrun : Deploy.shiftTraffic s t bw gw true = Except.ok
                ({ s with
                    deployments := aset s.deployments t
                      (aset slots "blue" { bs with trafficWeight := bw }),
                    trafficConfigs := aset s.trafficConfigs t
                      { blueWeight := bw, greenWeight := gw, updatedAt := s.clock },
                    clock := s.clock + 1 },
                 { blueWeight := bw, greenWeight := gw, updatedAt := s.clock }) := by
              simp [Deploy.shiftTraffic, hnotgt, hle1000, hslots, hb, hg1 _ hg]
            refine ⟨_, _, hrun, rfl, rfl, le_trans hle (by norm_num), ?_, ?_, ?_⟩
            · exact alookup_aset_self _ _ _
            · simp [Deploy.slotsOf, alookup_aset_self, hslots, hb]
            · simp [Deploy.slotsOf, alookup_aset_self, hslots, hg, hg1 _ hg]
        | some gs =>
            have hrun : Deploy.shiftTraffic s t bw gw true = Except.ok
                ({ s with
                    deployments := aset s.deployments t
                      (aset (aset slots "blue" { bs with trafficWeight := bw })
                        "green" { gs with trafficWeight := gw }),
                    trafficConfigs := aset s.trafficConfigs t
                      { blueWeight := bw, greenWeight := gw, updatedAt := s.clock },
                    clock := s.clock + 1 },
                 { blueWeight := bw, greenWeight := gw, updatedAt := s.clock }) := by
              simp [Deploy.shiftTraffic, hnotgt, hle1000, hslots, hb, hg1 _ hg]
            refine ⟨_, _, hrun, rfl, rfl, le_trans hle (by norm_num), ?_, ?_, ?_⟩
            · exact alookup_aset_self _ _ _
            · simp [Deploy.slotsOf, alookup_aset_self, hslots, hb,
                alookup_aset_ne _ "green" _ "blue" (by decide)]
            · simp [Deploy.slotsOf, alookup_aset_self, hslots, hg]

/-- C4 witness: a concrete deployer state (one deployed model type) on which
the shift-traffic theorem applies at weights (0.3, 0.7). -/
theorem C4_shift_traffic_weights_witness :
    (let s := (Deploy.deployToStaging Deploy.initial "completion" "v1").1
    ((alookup s.deployments "completion").isSome = true) ∧
    ((|(3/10 : ℚ) + 7/10 - 1| > 1/1000 →
      Deploy.shiftTraffic s "completion" (3/10) (7/10) true =
        Except.error Deploy.Err.invalidWeights) ∧
    (|(3/10 : ℚ) + 7/10 - 1| ≤ 1/1000 →
      ∃ s' config, Deploy.shiftTraffic s "completion" (3/10) (7/10) true =
          Except.ok (s', config) ∧
        config.blueWeight = 3/10 ∧
        config.greenWeight = 7/10 ∧
        |config.blueWeight + config.greenWeight - 1| ≤ 1/1000 ∧
        Deploy.getTrafficConfig s' "completion" = some config ∧
        alookup (Deploy.slotsOf s' "completion") "blue" =
          (alookup (Deploy.slotsOf s "completion") "blue").map
            (fun bs => { bs with trafficWeight := 3/10 }) ∧
        alookup (Deploy.slotsOf s' "completion") "green" =
          (alookup (Deploy.slotsOf s "completion") "green").map
            (fun gs => { gs with trafficWeight := 7/10 })))) := by
  refine ⟨by decide, ?_⟩
  exact C4_shift_traffic_weights _ "completion" (3/10) (7/10) (by decide)

/-- Helper: `shift_traffic` on a model type whose slot table is exactly
blue-then-green replaces the two weights and the TrafficConfig. -/
theorem Deploy.shift_two_slot (σ : Deploy.State) (t : String)
    (b g : Deploy.DeploymentState) (bw gw : ℚ)
    (hd : alookup σ.deployments t = some [("blue", b), ("green", g)])
    (hok : |bw + gw - 1| ≤ (1000 : ℚ)⁻¹) :
    Deploy.shiftTraffic σ t bw gw true = Except.ok
      ({ σ with
          deployments := aset σ.deployments t
            [("blue", { b with trafficWeight := bw }),
             ("green", { g with trafficWeight := gw })],
          trafficConfigs := aset σ.trafficConfigs t
            { blueWeight := bw, greenWeight := gw, updatedAt := σ.clock },
          clock := σ.clock + 1 },
       { blueWeight := bw, greenWeight := gw, updatedAt := σ.clock }) := by
  simp [Deploy.shiftTraffic, hd, hok, alookup, aset]

/-- Helper: step i of the gradual loop with green as staging slot, on a
blue-then-green state. -/
theorem Deploy.gradualStep_green (σ : Deploy.State) (t : String)
    (b g : Deploy.DeploymentState) (i : Nat)
    (hd : alookup σ.deployments t = some [("blue", b), ("green", g)]) :
    Deploy.gradualStep t "green" 5 σ i = Except.ok
      { σ with
          deployments := aset σ.deployments t
            [("blue", { b with trafficWeight := 1 - (i : ℚ)/5 }),
             ("green", { g with trafficWeight := (i : ℚ)/5 })],
          trafficConfigs := aset σ.trafficConfigs t
            { blueWeight := 1 - (i : ℚ)/5, greenWeight := (i : ℚ)/5
            , updatedAt := σ.clock },
          clock := σ.clock + 1 } := by
  have h := Deploy.shift_two_slot σ t b g (1 - (i : ℚ)/5) ((i : ℚ)/5) hd
    (by rw [show (1 - (i : ℚ)/5) + (i : ℚ)/5 - 1 = 0 by ring]; norm_num)
  simp [Deploy.gradualStep, h, Except.map]

theorem ok_bind {ε α β : Type} (a : α) (k : α → Except ε β) :
    (Except.ok (ε := ε) a >>= k) = k a := rfl

theorem aset_aset {α β : Type} [DecidableEq α] (l : List (α × β)) (k : α) (v w : β) :
    aset (aset l k v) k w = aset l k w := by
  induction l with
  | nil => simp [aset]
  | cons p rest ih =>
      obtain ⟨pk, pv⟩ := p
      by_cases hk : k = pk
      · subst hk; simp [aset]
      · simp [aset, hk, ih]

/-- The shape of the deployer state during a gradual green-ward promotion of a
blue-then-green model type: both slot weights and the TrafficConfig replaced,
clock advanced. -/
def Deploy.twoSlotState (s : Deploy.State) (t : String)
    (b g : Deploy.DeploymentState) (bw gw : ℚ) (stamp clk : Nat) : Deploy.State :=
  { s with
      deployments := aset s.deployments t
        [("blue", { b with trafficWeight := bw }),
         ("green", { g with trafficWeight := gw })],
      trafficConfigs := aset s.trafficConfigs t
        { blueWeight := bw, greenWeight := gw, updatedAt := stamp },
      clock := clk }

theorem Deploy.gradualStep_green_two (s : Deploy.State) (t : String)
    (b g : Deploy.DeploymentState) (bw gw : ℚ) (stamp clk : Nat) (i : Nat) :
    Deploy.gradualStep t "green" 5 (Deploy.twoSlotState s t b g bw gw stamp clk) i =
      Except.ok (Deploy.twoSlotState s t b g (1 - (i : ℚ)/5) ((i : ℚ)/5) clk (clk + 1)) := by
  have h := Deploy.gradualStep_green (Deploy.twoSlotState s t b g bw gw stamp clk) t
    { b with trafficWeight := bw } { g with trafficWeight := gw } i
    (by simp [Deploy.twoSlotState, alookup_aset_self])
  rw [h]
  congr 1
  simp [Deploy.twoSlotState, aset_aset]

/-- C5: gradual promotion.  From a state whose slot table for the model type
is blue (Active, weight 1.0) then green (the staging slot, Active, weight 0),
`promote_to_production(gradual=true, steps=5)` selects green as staging and
performs five successive traffic shifts whose TrafficConfigs run through
blue 1−j/5 and green j/5 for j = 1..5 (i.e. blue [0.8,0.6,0.4,0.2,0.0], green
[0.2,0.4,0.6,0.8,1.0]); afterwards the green slot is Active at weight 1.0 and
the blue slot Draining at weight 0.0.  For any model type with deployments,
the call fails with NoActiveStaging when the staging slot is absent or not
Active. -/
theorem C5_gradual_promote
    (s : Deploy.State) (t : String) (bs gs : Deploy.DeploymentState)
    (hd : alookup s.deployments t = some [("blue", bs), ("green", gs)])
    (hbsw : bs.trafficWeight = 1)
    (hbss : bs.status = Deploy.DeploymentStatus.active)
    (hgsw : gs.trafficWeight = 0)
    (hgss : gs.status = Deploy.DeploymentStatus.active) :
    Deploy.getInactiveSlot s t = "green" ∧
    (∀ j : Nat, 1 ≤ j → j ≤ 5 →
      ∃ σ, Deploy.gradualShifts t "green" 5 s j = Except.ok σ ∧
        ∃ c, Deploy.getTrafficConfig σ t = some c ∧
          c.blueWeight = 1 - (j : ℚ)/5 ∧ c.greenWeight = (j : ℚ)/5) ∧
    (∃ s2, Deploy.promoteToProduction s t true 5 = Except.ok s2 ∧
      (∃ gs2, alookup (Deploy.slotsOf s2 t) "green" = some gs2 ∧
        gs2.trafficWeight = 1 ∧ gs2.status = Deploy.DeploymentStatus.active ∧
        gs2.version = gs.version) ∧
      (∃ bs2, alookup (Deploy.slotsOf s2 t) "blue" = some bs2 ∧
        bs2.trafficWeight = 0 ∧ bs2.status = Deploy.DeploymentStatus.draining ∧
        bs2.version = bs.version) ∧
      (∃ c, Deploy.getTrafficConfig s2 t = some c ∧
        c.blueWeight = 0 ∧ c.greenWeight = 1)) ∧
    (∀ σ : Deploy.State, ∀ t0 : String,
      (alookup σ.deployments t0).isSome = true →
      (∀ st, alookup (Deploy.slotsOf σ t0) (Deploy.getInactiveSlot σ t0) = some st →
        st.status ≠ Deploy.DeploymentStatus.active) →
      ∀ g k, Deploy.promoteToProduction σ t0 g k = Except.error Deploy.Err.noActiveStaging) := by
  have hstag : Deploy.getInactiveSlot s t = "green" := by
    norm_num [Deploy.getInactiveSlot, hd, alookup, hbsw]
  have hact : Deploy.getActiveSlot s t = some "blue" := by
    norm_num [Deploy.getActiveSlot, hd, List.find?, hbsw]
  -- The five chained shifts.
  have h1 := Deploy.gradualStep_green s t bs gs 1 hd
  norm_num [Deploy.twoSlotState] at h1
  have h2 := Deploy.gradualStep_green_two s t bs gs (4/5) (1/5) s.clock (s.clock + 1) 2
  norm_num [Deploy.twoSlotState] at h2
  have h3 := Deploy.gradualStep_green_two s t bs gs (3/5) (2/5) (s.clock + 1) (s.clock + 2) 3
  norm_num [Deploy.twoSlotState] at h3
  have h4 := Deploy.gradualStep_green_two s t bs gs (2/5) (3/5) (s.clock + 2) (s.clock + 3) 4
  norm_num [Deploy.twoSlotState] at h4
  have h5 := Deploy.gradualStep_green_two s t bs gs (1/5) (4/5) (s.clock + 3) (s.clock + 4) 5
  norm_num [Deploy.twoSlotState] at h5
  have e1 : Deploy.gradualShifts t "green" 5 s 1 =
      Except.ok (Deploy.twoSlotState s t bs gs (4/5) (1/5) s.clock (s.clock + 1)) := by
    norm_num [Deploy.gradualShifts, List.range', List.foldlM, ok_bind, h1,
      Deploy.twoSlotState]
  have e2 : Deploy.gradualShifts t "green" 5 s 2 =
      Except.ok (Deploy.twoSlotState s t bs gs (3/5) (2/5) (s.clock + 1) (s.clock + 2)) := by
    norm_num [Deploy.gradualShifts, List.range', List.foldlM, ok_bind, h1, h2,
      Deploy.twoSlotState]
  have e3 : Deploy.gradualShifts t "green" 5 s 3 =
      Except.ok (Deploy.twoSlotState s t bs gs (2/5) (3/5) (s.clock + 2) (s.clock + 3)) := by
    norm_num [Deploy.gradualShifts, List.range', List.foldlM, ok_bind, h1, h2, h3,
      Deploy.twoSlotState]
  have e4 : Deploy.gradualShifts t "green" 5 s 4 =
      Except.ok (Deploy.twoSlotState s t bs gs (1/5) (4/5) (s.clock + 3) (s.clock + 4)) := by
    norm_num [Deploy.gradualShifts, List.range', List.foldlM, ok_bind, h1, h2, h3, h4,
      Deploy.twoSlotState]
  have e5 : Deploy.gradualShifts t "green" 5 s 5 =
      Except.ok (Deploy.twoSlotState s t bs gs 0 1 (s.clock + 4) (s.clock + 5)) := by
    norm_num [Deploy.gradualShifts, List.range', List.foldlM, ok_bind, h1, h2, h3, h4, h5,
      Deploy.twoSlotState]
  refine ⟨hstag, ?_, ?_, ?_⟩
  · intro j hj1 hj5
    interval_cases j
    · exact ⟨_, e1, ⟨4/5, 1/5, s.clock⟩, by simp [Deploy.twoSlotState,
        Deploy.getTrafficConfig, alookup_aset_self], by norm_num, by norm_num⟩
    · exact ⟨_, e2, ⟨3/5, 2/5, (s.clock + 1)⟩, by simp [Deploy.twoSlotState,
        Deploy.getTrafficConfig, alookup_aset_self], by norm_num, by norm_num⟩
    · exact ⟨_, e3, ⟨2/5, 3/5, (s.clock + 2)⟩, by simp [Deploy.twoSlotState,
        Deploy.getTrafficConfig, alookup_aset_self], by norm_num, by norm_num⟩
    · exact ⟨_, e4, ⟨1/5, 4/5, (s.clock + 3)⟩, by simp [Deploy.twoSlotState,
        Deploy.getTrafficConfig, alookup_aset_self], by norm_num, by norm_num⟩
    · exact ⟨_, e5, ⟨0, 1, (s.clock + 4)⟩, by simp [Deploy.twoSlotState,
        Deploy.getTrafficConfig, alookup_aset_self], by norm_num, by norm_num⟩
  · -- The promotion itself.
    have hpr : Deploy.promoteToProduction s t true 5 = Except.ok
        { s with
            deployments := aset s.deployments t
              [("blue", { bs with trafficWeight := 0, status := Deploy.DeploymentStatus.draining }),
               ("green", { gs with trafficWeight := 1, status := Deploy.DeploymentStatus.active })],
            trafficConfigs := aset s.trafficConfigs t
              { blueWeight := 0, greenWeight := 1, updatedAt := s.clock + 4 },
            history := s.history ++
              [{ action := "promote_production", modelType := t
               , version := gs.version.getD "", slot := "green"
               , timestamp := s.clock + 5, status := "success"
               , durationSeconds := 0, error := none }],
            clock := s.clock + 6 } := by
      simp [Deploy.promoteToProduction, hstag, hact, hd, hgss, e5, ok_bind,
        Deploy.slotsOf, Deploy.twoSlotState, alookup_aset_self, aset_aset,
        alookup, aset]
    refine ⟨_, hpr,
      ⟨{ gs with trafficWeight := 1, status := Deploy.DeploymentStatus.active },
        ?_, rfl, rfl, rfl⟩,
      ⟨{ bs with trafficWeight := 0, status := Deploy.DeploymentStatus.draining },
        ?_, rfl, rfl, rfl⟩,
      ⟨{ blueWeight := 0, greenWeight := 1, updatedAt := s.clock + 4 }, ?_, rfl, rfl⟩⟩
    · simp [Deploy.slotsOf, alookup_aset_self, alookup]
    · simp [Deploy.slotsOf, alookup_aset_self, alookup]
    · simp [Deploy.getTrafficConfig, alookup_aset_self]
  · -- NoActiveStaging.
    intro σ t0 hdep hstg g k
    obtain ⟨slots0, hslots0⟩ := Option.isSome_iff_exists.mp hdep
    cases halo : alookup (Deploy.slotsOf σ t0) (Deploy.getInactiveSlot σ t0) with
    | none =>
        simp only [Deploy.slotsOf, hslots0, Option.getD_some] at halo
        simp [Deploy.promoteToProduction, hslots0, Deploy.slotsOf, halo]
    | some st =>
        have hst := hstg st halo
        simp only [Deploy.slotsOf, hslots0, Option.getD_some] at halo
        simp [Deploy.promoteToProduction, hslots0, Deploy.slotsOf, halo, hst]

/-- C5 witness: a concrete two-slot state (blue Active at weight 1 holding v1,
green Active at weight 0 holding v2) satisfying the gradual-promotion
theorem's hypotheses. -/
theorem C5_gradual_promote_witness :
    (let bs : Deploy.DeploymentState :=
      { slot := "blue", modelType := "completion", version := some "v1"
      , status := Deploy.DeploymentStatus.active, trafficWeight := 1
      , deployedAt := some 0, healthStatus := "healthy"
      , lastHealthCheck := some 0, errorMessage := none }
    let gs : Deploy.DeploymentState :=
      { slot := "green", modelType := "completion", version := some "v2"
      , status := Deploy.DeploymentStatus.active, trafficWeight := 0
      , deployedAt := some 1, healthStatus := "healthy"
      , lastHealthCheck := some 1, errorMessage := none }
    let s : Deploy.State :=
      { deployments := [("completion", [("blue", bs), ("green", gs)])]
      , trafficConfigs :=
          [("completion", { blueWeight := 1, greenWeight := 0, updatedAt := 0 })]
      , history := [], clock := 2 }
    alookup s.deployments "completion" = some [("blue", bs), ("green", gs)] ∧
    bs.trafficWeight = 1 ∧
    bs.status = Deploy.DeploymentStatus.active ∧
    gs.trafficWeight = 0 ∧
    gs.status = Deploy.DeploymentStatus.active ∧
    (Deploy.getInactiveSlot s "completion" = "green" ∧
    (∀ j : Nat, 1 ≤ j → j ≤ 5 →
      ∃ σ, Deploy.gradualShifts "completion" "green" 5 s j = Except.ok σ ∧
        ∃ c, Deploy.getTrafficConfig σ "completion" = some c ∧
          c.blueWeight = 1 - (j : ℚ)/5 ∧ c.greenWeight = (j : ℚ)/5) ∧
    (∃ s2, Deploy.promoteToProduction s "completion" true 5 = Except.ok s2 ∧
      (∃ gs2, alookup (Deploy.slotsOf s2 "completion") "green" = some gs2 ∧
        gs2.trafficWeight = 1 ∧ gs2.status = Deploy.DeploymentStatus.active ∧
        gs2.version = gs.version) ∧
      (∃ bs2, alookup (Deploy.slotsOf s2 "completion") "blue" = some bs2 ∧
        bs2.trafficWeight = 0 ∧ bs2.status = Deploy.DeploymentStatus.draining ∧
        bs2.version = bs.version) ∧
      (∃ c, Deploy.getTrafficConfig s2 "completion" = some c ∧
        c.blueWeight = 0 ∧ c.greenWeight = 1)) ∧
    (∀ σ : Deploy.State, ∀ t0 : String,
      (alookup σ.deployments t0).isSome = true →
      (∀ st, alookup (Deploy.slotsOf σ t0) (Deploy.getInactiveSlot σ t0) = some st →
        st.status ≠ Deploy.DeploymentStatus.active) →
      ∀ g k, Deploy.promoteToProduction σ t0 g k =
        Except.error Deploy.Err.noActiveStaging))) := by
  refine ⟨rfl, rfl, rfl, rfl, rfl, ?_⟩
  exact C5_gradual_promote _ "completion" _ _ rfl rfl rfl rfl rfl

/-- C10: `deploy_to_staging` always stores the deployed slot with traffic
weight 0.0; `_get_inactive_slot` consults only the blue slot's stored weight
(green exactly when it is positive); consequently, for a fresh model type two
consecutive `deploy_to_staging` calls with no intervening `shift_traffic` both
select slot blue — the second overwrites the first deployment — while the
TrafficConfig initialised by the first deploy records blue weight 1.0. -/
theorem C10_deploy_staging_blue_bias
    (s : Deploy.State) (t v v1 v2 : String) :
    (let r := Deploy.deployToStaging s t v
    r.2.trafficWeight = 0 ∧
    alookup (Deploy.slotsOf r.1 t) (Deploy.getInactiveSlot s t) = some r.2) ∧
    (∀ slots bs, alookup s.deployments t = some slots →
      alookup slots "blue" = some bs →
      Deploy.getInactiveSlot s t =
        (if bs.trafficWeight > 0 then "green" else "blue")) ∧
    ((alookup s.deployments t).isNone = true →
      (let r1 := Deploy.deployToStaging s t v1
      let r2 := Deploy.deployToStaging r1.1 t v2
      Deploy.getInactiveSlot s t = "blue" ∧
      Deploy.getInactiveSlot r1.1 t = "blue" ∧
      r1.2.slot = "blue" ∧
      r2.2.slot = "blue" ∧
      (∃ st, alookup (Deploy.slotsOf r2.1 t) "blue" = some st ∧
        st.version = some v2 ∧ st.trafficWeight = 0) ∧
      alookup (Deploy.slotsOf r2.1 t) "green" = none ∧
      (∃ c, Deploy.getTrafficConfig r2.1 t = some c ∧
        c.blueWeight = 1 ∧ c.greenWeight = 0))) := by
  refine ⟨⟨rfl, ?_⟩, ?_, ?_⟩
  · simp [Deploy.deployToStaging, Deploy.slotsOf, alookup_aset_self]
  · intro slots bs hslots hbs
    simp [Deploy.getInactiveSlot, hslots, hbs]
  · intro hnew
    have hn : alookup s.deployments t = none := Option.isNone_iff_eq_none.mp hnew
    have hgis : Deploy.getInactiveSlot s t = "blue" := by
      simp [Deploy.getInactiveSlot, hn]
    have hr1 : Deploy.deployToStaging s t v1 =
        ({ s with
            deployments := aset s.deployments t
              [("blue",
                { slot := "blue", modelType := t, version := some v1
                , status := Deploy.DeploymentStatus.active, trafficWeight := 0
                , deployedAt := some s.clock, healthStatus := "healthy"
                , lastHealthCheck := some s.clock, errorMessage := none })],
            trafficConfigs := aset s.trafficConfigs t
              { blueWeight := 1, greenWeight := 0, updatedAt := s.clock },
            history := s.history ++
              [{ action := "deploy_staging", modelType := t, version := v1
               , slot := "blue", timestamp := s.clock, status := "success"
               , durationSeconds := 0, error := none }],
            clock := s.clock + 1 },
         { slot := "blue", modelType := t, version := some v1
         , status := Deploy.DeploymentStatus.active, trafficWeight := 0
         , deployedAt := some s.clock, healthStatus := "healthy"
         , lastHealthCheck := some s.clock, errorMessage := none }) := by
      simp [Deploy.deployToStaging, hn, hgis, aset_aset, alookup_aset_self, aset]
    have hgis1 : Deploy.getInactiveSlot (Deploy.deployToStaging s t v1).1 t = "blue" := by
      rw [hr1]
      simp [Deploy.getInactiveSlot, alookup_aset_self, alookup]
    have hr2 : Deploy.deployToStaging (Deploy.deployToStaging s t v1).1 t v2 =
        ({ s with
            deployments := aset s.deployments t
              [("blue",
                { slot := "blue", modelType := t, version := some v2
                , status := Deploy.DeploymentStatus.active, trafficWeight := 0
                , deployedAt := some (s.clock + 1), healthStatus := "healthy"
                , lastHealthCheck := some (s.clock + 1), errorMessage := none })],
            trafficConfigs := aset s.trafficConfigs t
              { blueWeight := 1, greenWeight := 0, updatedAt := s.clock },
            history := (s.history ++
              [{ action := "deploy_staging", modelType := t, version := v1
               , slot := "blue", timestamp := s.clock, status := "success"
               , durationSeconds := 0, error := none }]) ++
              [{ action := "deploy_staging", modelType := t, version := v2
               , slot := "blue", timestamp := s.clock + 1, status := "success"
               , durationSeconds := 0, error := none }],
            clock := s.clock + 2 },
         { slot := "blue", modelType := t, version := some v2
         , status := Deploy.DeploymentStatus.active, trafficWeight := 0
         , deployedAt := some (s.clock + 1), healthStatus := "healthy"
         , lastHealthCheck := some (s.clock + 1), errorMessage := none }) := by
      rw [hr1]
      simp [Deploy.deployToStaging, Deploy.getInactiveSlot, alookup_aset_self,
        aset_aset, alookup, aset]
    refine ⟨hgis, hgis1, by rw [hr1], by rw [hr2], ?_, ?_, ?_⟩
    · rw [hr2]
      refine ⟨Deploy.DeploymentState.mk "blue" t (some v2)
        Deploy.DeploymentStatus.active 0 (some (s.clock + 1)) "healthy"
        (some (s.clock + 1)) none, ?_, rfl, rfl⟩
      simp [Deploy.slotsOf, alookup_aset_self, alookup]
    · rw [hr2]
      simp [Deploy.slotsOf, alookup_aset_self, alookup]
    · rw [hr2]
      refine ⟨{ blueWeight := 1, greenWeight := 0, updatedAt := s.clock }, ?_, rfl, rfl⟩
      simp [Deploy.getTrafficConfig, alookup_aset_self]

/-- C10 witness: the fresh-model-type scenario on an empty deployer. -/
theorem C10_deploy_staging_blue_bias_witness :
    ((alookup Deploy.initial.deployments "completion").isNone = true) ∧
    (let r := Deploy.deployToStaging Deploy.initial "completion" "v0"
    r.2.trafficWeight = 0 ∧
    alookup (Deploy.slotsOf r.1 "completion")
      (Deploy.getInactiveSlot Deploy.initial "completion") = some r.2) ∧
    ((alookup Deploy.initial.deployments "completion").isNone = true →
      (let r1 := Deploy.deployToStaging Deploy.initial "completion" "v1"
      let r2 := Deploy.deployToStaging r1.1 "completion" "v2"
      Deploy.getInactiveSlot Deploy.initial "completion" = "blue" ∧
      Deploy.getInactiveSlot r1.1 "completion" = "blue" ∧
      r1.2.slot = "blue" ∧
      r2.2.slot = "blue" ∧
      (∃ st, alookup (Deploy.slotsOf r2.1 "completion") "blue" = some st ∧
        st.version = some "v2" ∧ st.trafficWeight = 0) ∧
      alookup (Deploy.slotsOf r2.1 "completion") "green" = none ∧
      (∃ c, Deploy.getTrafficConfig r2.1 "completion" = some c ∧
        c.blueWeight = 1 ∧ c.greenWeight = 0))) := by
  refine ⟨by decide, ?_, ?_⟩
  · exact (C10_deploy_staging_blue_bias Deploy.initial "completion" "v0" "v1" "v2").1
  · exact (C10_deploy_staging_blue_bias Deploy.initial "completion" "v0" "v1" "v2").2.2

/-! ## Drift Detector (src/src/ml/monitoring/drift_detector.py)

Floats are idealised: exact data values as rationals, statistics that involve
`sqrt`/`log` as real numbers (hence the `noncomputable` definitions), float
comparisons as real-number propositions. -/

namespace Drift

/-- One pandas DataFrame column: a name, whether its dtype is one of the
numeric dtypes `set_baseline` accepts, and its values (`none` = NaN). -/
structure Column where
  name : String
  numeric : Bool
  values : List (Option ℚ)
deriving DecidableEq

/-- A DataFrame, column-oriented. -/
abbrev DataFrame := List Column

/-- `series.dropna()`. -/
def dropna (xs : List (Option ℚ)) : List ℚ := xs.filterMap id

/-- Dataclass `FeatureStatistics`; the standard deviation is a real (it is a
square root). -/
structure FeatureStatistics where
  name : String
  mean : ℚ
  std : ℝ
  minVal : ℚ
  maxVal : ℚ
  median : ℚ
  q1 : ℚ
  q3 : ℚ
  missingRate : ℚ
  uniqueCount : Nat
  histogramBins : List ℚ
  histogramCounts : List Nat

/-- Minimum of a nonempty rational list (0 for []). -/
def listMin : List ℚ → ℚ
  | [] => 0
  | x :: xs => xs.foldl min x

/-- Maximum of a nonempty rational list (0 for []). -/
def listMax : List ℚ → ℚ
  | [] => 0
  | x :: xs => xs.foldl max x

/-- Insertion sort on rationals (ascending), for the pandas quantiles. -/
def insertSorted (x : ℚ) : List ℚ → List ℚ
  | [] => [x]
  | y :: ys => if x ≤ y then x :: y :: ys else y :: insertSorted x ys

def sortRat (xs : List ℚ) : List ℚ := xs.foldr insertSorted []

/-- pandas `Series.quantile(q)` with linear interpolation on the sorted data:
position q·(n−1), interpolate between the neighbouring order statistics. -/
def quantile (xs : List ℚ) (q : ℚ) : ℚ :=
  let sorted := sortRat xs
  let n := sorted.length
  if n = 0 then 0
  else
    let pos : ℚ := q * ((n : ℚ) - 1)
    let k : Nat := pos.floor.toNat
    let frac : ℚ := pos - (k : ℚ)
    let a := sorted.getD k 0
    let b := sorted.getD (k + 1) a
    a + frac * (b - a)

/-- `np.histogram(clean, bins=20)`: equal-width bins over [min, max]
(expanded by ±0.5 when the range is empty, as numpy does), right-open except
for the last bin.  Returns (bin edges, counts). -/
def histogram (xs : List ℚ) (nbins : Nat) : List ℚ × List Nat :=
  let mn := listMin xs
  let mx := listMax xs
  let lo := if mn = mx then mn - 1/2 else mn
  let hi := if mn = mx then mx + 1/2 else mx
  let edge := fun (k : Nat) => lo + (hi - lo) * (k : ℚ) / (nbins : ℚ)
  let edges := (List.range (nbins + 1)).map edge
  let counts := (List.range nbins).map (fun i =>
    if i + 1 = nbins then
      xs.countP (fun x => decide (edge i ≤ x ∧ x ≤ hi))
    else
      xs.countP (fun x => decide (edge i ≤ x ∧ x < edge (i + 1))))
  (edges, counts)

/-- Sample variance with ddof = 1 (pandas `std` squared); 0 for fewer than two
observations (pandas would produce NaN for a single one — the claims never
exercise that value). -/
def sampleVariance (xs : List ℚ) : ℚ :=
  let n := xs.length
  if n ≤ 1 then 0
  else
    let m := xs.sum / (n : ℚ)
    (xs.map (fun x => (x - m) ^ 2)).sum / ((n : ℚ) - 1)

/-- `FeatureStatistics.from_series`: drop the NaNs; all-zero statistics with
missing-rate 1 and empty histogram when nothing remains, else the moments,
order statistics and a 20-bin histogram of the clean data. -/
noncomputable def fromSeries (name : String) (series : List (Option ℚ)) :
    FeatureStatistics :=
  let clean := dropna series
  if clean = [] then
    { name := name, mean := 0, std := 0, minVal := 0, maxVal := 0, median := 0
    , q1 := 0, q3 := 0, missingRate := 1, uniqueCount := 0
    , histogramBins := [], histogramCounts := [] }
  else
    let h := histogram clean 20
    { name := name
    , mean := clean.sum / (clean.length : ℚ)
    , std := Real.sqrt ((sampleVariance clean : ℚ) : ℝ)
    , minVal := listMin clean
    , maxVal := listMax clean
    , median := quantile clean (1/2)
    , q1 := quantile clean (1/4)
    , q3 := quantile clean (3/4)
    , missingRate := ((series.length - clean.length : Nat) : ℚ) / (series.length : ℚ)
    , uniqueCount := clean.dedup.length
    , histogramBins := h.1
    , histogramCounts := h.2 }

/-- `np.linspace(0, 1, k)`. -/
noncomputable def linspace01 (k : Nat) : List ℝ :=
  if k = 0 then []
  else if k = 1 then [0]
  else (List.range k).map (fun i => (i : ℝ) / ((k : ℝ) - 1))

/-- `np.interp` at one point over increasing sample points (paired with their
values). -/
noncomputable def interpAt : List (ℝ × ℝ) → ℝ → ℝ
  | [], _ => 0
  | [(_, fy)], _ => fy
  | (x1, y1) :: (x2, y2) :: rest, x =>
      if x ≤ x1 then y1
      else if x ≤ x2 then y1 + (x - x1) * (y2 - y1) / (x2 - x1)
      else interpAt ((x2, y2) :: rest) x

/-- `np.interp(np.linspace(0,1,m), np.linspace(0,1,len fp), fp)` — the
re-binning used when the two histograms have different lengths. -/
noncomputable def interpResample (fp : List ℝ) (m : Nat) : List ℝ :=
  let xp := linspace01 fp.length
  (linspace01 m).map (interpAt (xp.zip fp))

/-- The smoothing constant 1e-10 of the divergence computations. -/
noncomputable def epsilon : ℝ := 1 / 10 ^ 10

/-- `DriftDetector._calculate_kl_divergence`: 0 when either histogram is
empty; otherwise resample to the common length if needed, add the smoothing
constant, normalise to probabilities, and sum p·log(p/q). -/
noncomputable def klDivergence (baseline current : FeatureStatistics) : ℝ :=
  if baseline.histogramCounts = [] ∨ current.histogramCounts = [] then 0
  else
    let p0 : List ℝ := baseline.histogramCounts.map (fun n => (n : ℝ))
    let q0 : List ℝ := current.histogramCounts.map (fun n => (n : ℝ))
    let m := min p0.length q0.length
    let p1 := if p0.length ≠ q0.length then interpResample p0 m else p0
    let q1 := if p0.length ≠ q0.length then interpResample q0 m else q0
    let p2 := p1.map (· + epsilon)
    let q2 := q1.map (· + epsilon)
    let sp := p2.sum
    let sq := q2.sum
    ((p2.zip q2).map (fun pr => pr.1 / sp * Real.log (pr.1 / sp / (pr.2 / sq)))).sum

/-- `DriftDetector._calculate_psi`: same guard and resampling; smoothed and
normalised by (sum + ε·len); Σ (q−p)·log(q/p). -/
noncomputable def psiCalc (baseline current : FeatureStatistics) : ℝ :=
  if baseline.histogramCounts = [] ∨ current.histogramCounts = [] then 0
  else
    let p0 : List ℝ := baseline.histogramCounts.map (fun n => (n : ℝ))
    let q0 : List ℝ := current.histogramCounts.map (fun n => (n : ℝ))
    let m := min p0.length q0.length
    let p1 := if p0.length ≠ q0.length then interpResample p0 m else p0
    let q1 := if p0.length ≠ q0.length then interpResample q0 m else q0
    let sp := p1.sum + epsilon * p1.length
    let sq := q1.sum + epsilon * q1.length
    let p2 := p1.map (fun x => (x + epsilon) / sp)
    let q2 := q1.map (fun x => (x + epsilon) / sq)
    ((p2.zip q2).map (fun pr => (pr.2 - pr.1) * Real.log (pr.2 / pr.1))).sum

/-- `DriftDetector._calculate_mean_shift`: (currentMean − baselineMean) /
baselineStd, and 0 when the baseline standard deviation is 0. -/
noncomputable def meanShift (baseline current : FeatureStatistics) : ℝ :=
  if baseline.std = 0 then 0
  else ((current.mean : ℝ) - (baseline.mean : ℝ)) / baseline.std

end Drift

namespace Drift

open scoped Classical

/-- Dataclass `DriftResult`.  `has_drift` is the float comparison, idealised
as a real proposition; the formatted `details` string is not modelled. -/
structure DriftResult where
  featureName : String
  driftType : String
  driftScore : ℝ
  threshold : ℝ
  hasDrift : Prop
  severity : String
  baselineMean : ℚ
  baselineStd : ℝ
  baselineMedian : ℚ
  currentMean : ℚ
  currentStd : ℝ
  currentMedian : ℚ

/-- Dataclass `DriftReport`; the timestamp-derived report id is modelled by
the detector's logical clock. -/
structure DriftReport where
  reportId : Nat
  modelType : String
  modelVersion : String
  hasDrift : Prop
  overallSeverity : String
  driftScore : ℝ
  featureResults : List DriftResult
  driftedFeatures : List String
  recommendations : List String
  currentSampleSize : Nat

/-- Dataclass `Alert` (id/timestamps by logical clock). -/
structure Alert where
  alertId : Nat
  severity : String
  driftType : String
  message : String
  affectedFeatures : List String
  recommendedAction : String
  acknowledged : Bool
  acknowledgedBy : Option String

/-- The in-memory state of `DriftDetector`. -/
structure Detector where
  baselineStats : List (String × FeatureStatistics)
  klThreshold : ℝ
  psiThreshold : ℝ
  meanShiftThreshold : ℝ
  alerts : List Alert
  reports : List DriftReport
  clock : Nat

/-- The class defaults: KL 0.1, PSI 0.2, mean shift 2.0 standard deviations. -/
noncomputable def defaultDetector : Detector :=
  { baselineStats := [], klThreshold := 1/10, psiThreshold := 2/10
  , meanShiftThreshold := 2, alerts := [], reports := [], clock := 0 }

/-- `DriftDetector.set_baseline`: per-feature statistics of every numeric
column, replacing any prior baseline. -/
noncomputable def setBaseline (d : Detector) (data : DataFrame) :
    Detector × List (String × FeatureStatistics) :=
  let stats := (data.filter (fun c => c.numeric)).map
    (fun c => (c.name, fromSeries c.name c.values))
  ({ d with baselineStats := stats }, stats)

/-- `feature_name in current_data.columns` followed by
`current_data[feature_name]`: the first column with the given name. -/
def findCol (data : DataFrame) (name : String) : Option Column :=
  data.find? (fun c => c.name = name)

/-- `DriftDetector._get_severity` (as the enum's value string). -/
noncomputable def getSeverity (score : ℝ) : String :=
  if score ≥ 3/10 then "critical"
  else if score ≥ 2/10 then "high"
  else if score ≥ 1/10 then "medium"
  else if score ≥ 1/20 then "low"
  else "none"

/-- `DriftDetector._generate_recommendations`.  Note the early return: with no
drifted feature the list is exactly the monitoring guidance and the trailing
retraining suggestion is not appended. -/
def generateRecommendations (results : List DriftResult)
    (driftedFeatures : List String) : List String :=
  if driftedFeatures = [] then
    ["No significant drift detected. Continue monitoring."]
  else
    let highSeverity := (results.filter
      (fun r => r.severity = "high" ∨ r.severity = "critical")).length
    (if highSeverity > 0 then
      ["URGENT: " ++ toString highSeverity ++ " features show high/critical drift. " ++
        "Consider increasing human oversight and investigating data quality."]
     else []) ++
    (if (driftedFeatures.length : ℚ) > (results.length : ℚ) * (3/10) then
      ["Multiple features drifting suggests systematic data change. " ++
        "Investigate upstream data sources."]
     else []) ++
    (if driftedFeatures.length ≤ 3 then
      ["Investigate specific features: " ++ String.intercalate ", " driftedFeatures]
     else []) ++
    ["Consider retraining the model with recent data if drift persists."]

/-- The per-feature body of the `detect_drift` loop: skip features missing
from the current data; otherwise compute the three metrics, the drift flag
(any metric above its threshold), the normalised score (max of the metrics
each divided by its threshold) and the severity. -/
noncomputable def analyzeFeature (d : Detector) (data : DataFrame)
    (fname : String) (b : FeatureStatistics) : Option DriftResult :=
  match findCol data fname with
  | none => none
  | some col =>
    let cur := fromSeries fname col.values
    let kl := klDivergence b cur
    let psi := psiCalc b cur
    let ms := meanShift b cur
    some
      { featureName := fname
      , driftType := "feature_drift"
      , driftScore := max (kl / d.klThreshold)
          (max (psi / d.psiThreshold) (|ms| / d.meanShiftThreshold))
      , threshold := 1
      , hasDrift := kl > d.klThreshold ∨ psi > d.psiThreshold ∨
          |ms| > d.meanShiftThreshold
      , severity := getSeverity (max (kl / d.klThreshold)
          (max (psi / d.psiThreshold) (|ms| / d.meanShiftThreshold)))
      , baselineMean := b.mean, baselineStd := b.std, baselineMedian := b.median
      , currentMean := cur.mean, currentStd := cur.std, currentMedian := cur.median }

/-- Accumulation step of the loop: append the result, and the feature name to
the drifted list when flagged. -/
noncomputable def detectStep (d : Detector) (data : DataFrame)
    (acc : List DriftResult × List String) (p : String × FeatureStatistics) :
    List DriftResult × List String :=
  match analyzeFeature d data p.1 p.2 with
  | none => acc
  | some r => (acc.1 ++ [r], if r.hasDrift then acc.2 ++ [p.1] else acc.2)

/-- `max([r.drift_score for r in feature_results]) if feature_results else 0`. -/
noncomputable def overallScoreOf (results : List DriftResult) : ℝ :=
  match results.map DriftResult.driftScore with
  | [] => 0
  | x :: xs => xs.foldl max x

/-- The error `detect_drift` raises before a baseline is set. -/
inductive Err where
  | baselineNotSet
deriving DecidableEq, Repr

/-- `DriftDetector.detect_drift`: requires a baseline, folds the per-feature
analysis over it, derives the overall score/severity, generates the
recommendations and the report, and appends an alert exactly when at least
one feature drifted. -/
noncomputable def detectDrift (d : Detector) (data : DataFrame)
    (modelType modelVersion : String) : Except Err (Detector × DriftReport) :=
  if d.baselineStats = [] then Except.error Err.baselineNotSet
  else
    let rd := d.baselineStats.foldl (detectStep d data) ([], [])
    let results := rd.1
    let drifted := rd.2
    let overallScore := overallScoreOf results
    let overallSeverity := getSeverity overallScore
    let recommendations := generateRecommendations results drifted
    let report : DriftReport :=
      { reportId := d.clock
      , modelType := modelType
      , modelVersion := modelVersion
      , hasDrift := drifted ≠ []
      , overallSeverity := overallSeverity
      , driftScore := overallScore
      , featureResults := results
      , driftedFeatures := drifted
      , recommendations := recommendations
      , currentSampleSize := (data.headD ⟨"", false, []⟩).values.length }
    let alerts1 :=
      if drifted ≠ [] then
        d.alerts ++
          [{ alertId := d.clock
           , severity := overallSeverity
           , driftType := "feature_drift"
           , message := "Drift detected in " ++ toString drifted.length ++ " features"
           , affectedFeatures := drifted
           , recommendedAction := recommendations.headD "Investigate drift"
           , acknowledged := false
           , acknowledgedBy := none }]
      else d.alerts
    Except.ok
      ({ d with
          alerts := alerts1,
          reports := d.reports ++ [report],
          clock := d.clock + 1 }, report)

end Drift

/-- C7: the drift metrics are total on degenerate inputs.  For every pair of
baseline/current FeatureStatistics, the mean shift is
(currentMean − baselineMean)/baselineStd, and 0 when the baseline standard
deviation is 0; KL divergence and PSI evaluate to 0 when either histogram is
empty.  (All three are total Lean functions, so no input can raise.) -/
theorem C7_degenerate_metrics (b c : Drift.FeatureStatistics) :
    (b.std = 0 → Drift.meanShift b c = 0) ∧
    (b.std ≠ 0 →
      Drift.meanShift b c = ((c.mean : ℝ) - (b.mean : ℝ)) / b.std) ∧
    (b.histogramCounts = [] ∨ c.histogramCounts = [] →
      Drift.klDivergence b c = 0 ∧ Drift.psiCalc b c = 0) := by
  refine ⟨?_, ?_, ?_⟩
  · intro h
    simp [Drift.meanShift, h]
  · intro h
    simp [Drift.meanShift, h]
  · intro h
    exact ⟨by simp [Drift.klDivergence, h], by simp [Drift.psiCalc, h]⟩

/-- C7 witness: zero-variance, empty-histogram statistics (the spec's
hours_until_sla example, with no histogram data). -/
theorem C7_degenerate_metrics_witness :
    (let b : Drift.FeatureStatistics :=
      { name := "hours_until_sla", mean := 24, std := 0, minVal := 0, maxVal := 0
      , median := 24, q1 := 24, q3 := 24, missingRate := 0, uniqueCount := 1
      , histogramBins := [], histogramCounts := [] }
    let c : Drift.FeatureStatistics := { b with mean := 40 }
    b.std = 0 ∧ (b.histogramCounts = [] ∨ c.histogramCounts = []) ∧
    Drift.meanShift b c = 0 ∧ Drift.klDivergence b c = 0 ∧ Drift.psiCalc b c = 0) := by
  refine ⟨rfl, Or.inl rfl, ?_, ?_, ?_⟩
  · exact (C7_degenerate_metrics _ _).1 rfl
  · exact ((C7_degenerate_metrics _ _).2.2 (Or.inl rfl)).1
  · exact ((C7_degenerate_metrics _ _).2.2 (Or.inl rfl)).2

/-- C8 counterexample: with no drifted feature `_generate_recommendations`
returns early with only the monitoring guidance, so the list does not end
with the generic retraining suggestion — even when a high-severity feature
result is present (so no "urgent" line either). -/
theorem C8_recommendations_counterexample :
    (let r0 : Drift.DriftResult :=
      { featureName := "f", driftType := "feature_drift", driftScore := 0
      , threshold := 1, hasDrift := False, severity := "high"
      , baselineMean := 0, baselineStd := 0, baselineMedian := 0
      , currentMean := 0, currentStd := 0, currentMedian := 0 }
    let recs := Drift.generateRecommendations [r0] []
    r0.severity = "high" ∧
    recs = ["No significant drift detected. Continue monitoring."] ∧
    recs.getLast? = some "No significant drift detected. Continue monitoring." ∧
    "No significant drift detected. Continue monitoring." ≠
      "Consider retraining the model with recent data if drift persists.") := by
  exact ⟨rfl, rfl, rfl, by decide⟩

/-- C8 (amended): when no feature drifted the recommendation list is exactly
the monitoring guidance (and nothing else); when at least one feature
drifted, the list contains the "urgent" line whenever some result is
high/critical severity, the "systematic" line whenever more than 30% of
evaluated features drifted, the line naming the drifted features whenever
they number at most 3, and its last element is the generic retraining
suggestion. -/
theorem C8_recommendations (results : List Drift.DriftResult)
    (drifted : List String) :
    (drifted = [] →
      Drift.generateRecommendations results drifted =
        ["No significant drift detected. Continue monitoring."]) ∧
    (drifted ≠ [] →
      (0 < (results.filter
          (fun r => r.severity = "high" ∨ r.severity = "critical")).length →
        ("URGENT: " ++ toString (results.filter
            (fun r => r.severity = "high" ∨ r.severity = "critical")).length ++
          " features show high/critical drift. " ++
          "Consider increasing human oversight and investigating data quality.")
          ∈ Drift.generateRecommendations results drifted) ∧
      ((drifted.length : ℚ) > (results.length : ℚ) * (3/10) →
        ("Multiple features drifting suggests systematic data change. " ++
          "Investigate upstream data sources.")
          ∈ Drift.generateRecommendations results drifted) ∧
      (drifted.length ≤ 3 →
        ("Investigate specific features: " ++ String.intercalate ", " drifted)
          ∈ Drift.generateRecommendations results drifted) ∧
      (Drift.generateRecommendations results drifted).getLast? =
        some "Consider retraining the model with recent data if drift persists.") := by
  constructor
  · intro h
    simp [Drift.generateRecommendations, h]
  · intro h
    refine ⟨?_, ?_, ?_, ?_⟩
    · intro hc
      have hc2 : 0 < (results.filter
          (fun r => decide (r.severity = "high") || decide (r.severity = "critical"))).length := by
        simpa using hc
      simp [Drift.generateRecommendations, h, hc2]
    · intro hq
      simp [Drift.generateRecommendations, h, hq]
    · intro hle
      simp [Drift.generateRecommendations, h, hle]
    · simp only [Drift.generateRecommendations, if_neg h, ← List.append_assoc]
      rw [List.getLast?_concat]

/-- C8 witness: one critical-severity drifted feature — the amended theorem
applied at a concrete result set. -/
theorem C8_recommendations_witness :
    (let r0 : Drift.DriftResult :=
      { featureName := "f", driftType := "feature_drift", driftScore := 1
      , threshold := 1, hasDrift := True, severity := "critical"
      , baselineMean := 0, baselineStd := 0, baselineMedian := 0
      , currentMean := 0, currentStd := 0, currentMedian := 0 }
    (["f"] : List String) ≠ [] ∧
    0 < ([r0].filter
      (fun r => r.severity = "high" ∨ r.severity = "critical")).length ∧
    (["f"] : List String).length ≤ 3 ∧
    ("URGENT: " ++ toString ([r0].filter
        (fun r => r.severity = "high" ∨ r.severity = "critical")).length ++
      " features show high/critical drift. " ++
      "Consider increasing human oversight and investigating data quality.")
      ∈ Drift.generateRecommendations [r0] ["f"] ∧
    ("Investigate specific features: " ++ String.intercalate ", " ["f"])
      ∈ Drift.generateRecommendations [r0] ["f"] ∧
    (Drift.generateRecommendations [r0] ["f"]).getLast? =
      some "Consider retraining the model with recent data if drift persists.") := by
  refine ⟨by decide, by decide, by decide, ?_, ?_, ?_⟩
  · exact ((C8_recommendations _ _).2 (by decide)).1 (by decide)
  · exact (((C8_recommendations _ _).2 (by decide)).2.2).1 (by decide)
  · exact (((C8_recommendations _ _).2 (by decide)).2.2).2

namespace Drift

theorem sum_kl_zip_self (S : ℝ) : ∀ l : List ℝ,
    ((l.zip l).map (fun pr => pr.1 / S * Real.log (pr.1 / S / (pr.2 / S)))).sum = 0 := by
  intro l
  induction l with
  | nil => simp
  | cons x xs ih =>
      simp only [List.zip_cons_cons, List.map_cons, List.sum_cons, ih, add_zero]
      by_cases ha : x / S = 0
      · simp [ha]
      · simp [div_self ha]

theorem sum_psi_zip_self : ∀ l : List ℝ,
    ((l.zip l).map (fun pr => (pr.2 - pr.1) * Real.log (pr.2 / pr.1))).sum = 0 := by
  intro l
  induction l with
  | nil => simp
  | cons x xs ih => simp [List.zip_cons_cons, ih]

/-- KL divergence of a distribution against itself (equal histogram count
lists) is 0. -/
theorem klDivergence_self (b c : FeatureStatistics)
    (h : b.histogramCounts = c.histogramCounts) : klDivergence b c = 0 := by
  by_cases he : b.histogramCounts = []
  · simp [klDivergence, he]
  · have hc : ¬ (b.histogramCounts = [] ∨ c.histogramCounts = []) := by
      rw [← h]
      simpa using he
    simp only [klDivergence, if_neg hc, h]
    simp [sum_kl_zip_self]

/-- PSI of a distribution against itself is 0. -/
theorem psiCalc_self (b c : FeatureStatistics)
    (h : b.histogramCounts = c.histogramCounts) : psiCalc b c = 0 := by
  by_cases he : b.histogramCounts = []
  · simp [psiCalc, he]
  · have hc : ¬ (b.histogramCounts = [] ∨ c.histogramCounts = []) := by
      rw [← h]
      simpa using he
    simp only [psiCalc, if_neg hc, h]
    simp [sum_psi_zip_self]

/-- Mean shift between statistics with equal means is 0. -/
theorem meanShift_self (b c : FeatureStatistics) (h : b.mean = c.mean) :
    meanShift b c = 0 := by
  by_cases hs : b.std = 0
  · simp [meanShift, hs]
  · simp [meanShift, hs, h]

/-- With duplicate-free column names, the column lookup of `detect_drift`
finds exactly the column the baseline was computed from. -/
theorem findCol_of_nodup (data : DataFrame) (c : Column)
    (hnd : (data.map Column.name).Nodup) (hc : c ∈ data) :
    findCol data c.name = some c := by
  induction data with
  | nil => cases hc
  | cons x xs ih =>
      simp only [List.map_cons, List.nodup_cons] at hnd
      rcases List.mem_cons.mp hc with rfl | hc2
      · simp [findCol, List.find?]
      · have hne : ¬ (x.name = c.name) := by
          intro hxc
          exact hnd.1 (hxc ▸ List.mem_map_of_mem Column.name hc2)
        have := ih hnd.2 hc2
        simpa [findCol, List.find?, hne] using this

/-- Property-preservation of the per-feature fold of `detect_drift`: when
every analysed feature satisfies P and is unflagged, the fold preserves P on
the result list and never extends the drifted list. -/
theorem detect_fold_prop (d : Detector) (data : DataFrame)
    (P : DriftResult → Prop) :
    ∀ l : List (String × FeatureStatistics),
    (∀ p ∈ l, ∀ r, analyzeFeature d data p.1 p.2 = some r → P r ∧ ¬ r.hasDrift) →
    ∀ acc : List DriftResult × List String,
    (∀ r ∈ acc.1, P r) →
    ((l.foldl (detectStep d data) acc).2 = acc.2 ∧
     ∀ r ∈ (l.foldl (detectStep d data) acc).1, P r) := by
  intro l
  induction l with
  | nil =>
      intro _ acc hacc
      exact ⟨rfl, hacc⟩
  | cons p rest ih =>
      intro hstep acc hacc
      simp only [List.foldl_cons]
      cases hana : analyzeFeature d data p.1 p.2 with
      | none =>
          have hst : detectStep d data acc p = acc := by
            simp [detectStep, hana]
          rw [hst]
          exact ih (fun q hq => hstep q (List.mem_cons_of_mem _ hq)) acc hacc
      | some r =>
          obtain ⟨hPr, hnd⟩ := hstep p (List.mem_cons_self _ _) r hana
          have hst : detectStep d data acc p = (acc.1 ++ [r], acc.2) := by
            simp [detectStep, hana, hnd]
          rw [hst]
          refine ih (fun q hq => hstep q (List.mem_cons_of_mem _ hq)) _ ?_
          intro q hq
          rcases List.mem_append.mp hq with hq2 | hq2
          · exact hacc q hq2
          · simp at hq2
            subst hq2
            exact hPr

end Drift

/-- C6 (round-trip law): after `set_baseline(data)` on any detector with
non-negative thresholds (the defaults are 0.1/0.2/2.0), calling
`detect_drift` with the same data yields, for every analysed feature, drift
score 0 and no drift flag; the report has no drift, an empty drifted-feature
list, and no alert is generated. -/
theorem C6_drift_roundtrip
    (d : Drift.Detector) (data : Drift.DataFrame) (mt mv : String)
    (hnodup : (data.map Drift.Column.name).Nodup)
    (hnum : data.filter (fun c => c.numeric) ≠ [])
    (hkl : 0 ≤ d.klThreshold) (hpsi : 0 ≤ d.psiThreshold)
    (hms : 0 ≤ d.meanShiftThreshold) :
    (∃ d2 report,
      Drift.detectDrift (Drift.setBaseline d data).1 data mt mv =
        Except.ok (d2, report) ∧
      (∀ r ∈ report.featureResults, r.driftScore = 0 ∧ ¬ r.hasDrift) ∧
      ¬ report.hasDrift ∧
      report.driftedFeatures = [] ∧
      d2.alerts = (Drift.setBaseline d data).1.alerts) := by
  have hbs : (Drift.setBaseline d data).1.baselineStats =
      (data.filter (fun c => c.numeric)).map
        (fun c => (c.name, Drift.fromSeries c.name c.values)) := rfl
  have hbne : ¬ (Drift.setBaseline d data).1.baselineStats = [] := by
    rw [hbs]
    simpa using hnum
  have hstep : ∀ p ∈ (Drift.setBaseline d data).1.baselineStats,
      ∀ r, Drift.analyzeFeature (Drift.setBaseline d data).1 data p.1 p.2 = some r →
        (r.driftScore = 0 ∧ ¬ r.hasDrift) ∧ ¬ r.hasDrift := by
    intro p hp r hr
    rw [hbs] at hp
    obtain ⟨c, hcf, rfl⟩ := List.mem_map.mp hp
    have hcd : c ∈ data := List.mem_of_mem_filter hcf
    have hfind : Drift.findCol data c.name = some c :=
      Drift.findCol_of_nodup data c hnodup hcd
    have hkl0 : Drift.klDivergence (Drift.fromSeries c.name c.values)
        (Drift.fromSeries c.name c.values) = 0 :=
      Drift.klDivergence_self _ _ rfl
    have hpsi0 : Drift.psiCalc (Drift.fromSeries c.name c.values)
        (Drift.fromSeries c.name c.values) = 0 :=
      Drift.psiCalc_self _ _ rfl
    have hms0 : Drift.meanShift (Drift.fromSeries c.name c.values)
        (Drift.fromSeries c.name c.values) = 0 :=
      Drift.meanShift_self _ _ rfl
    simp only [Drift.analyzeFeature, hfind, Option.some.injEq] at hr
    subst hr
    have hnodrift : ¬ (Drift.klDivergence (Drift.fromSeries c.name c.values)
          (Drift.fromSeries c.name c.values) >
            (Drift.setBaseline d data).1.klThreshold ∨
        Drift.psiCalc (Drift.fromSeries c.name c.values)
          (Drift.fromSeries c.name c.values) >
            (Drift.setBaseline d data).1.psiThreshold ∨
        |Drift.meanShift (Drift.fromSeries c.name c.values)
          (Drift.fromSeries c.name c.values)| >
            (Drift.setBaseline d data).1.meanShiftThreshold) := by
      rw [hkl0, hpsi0, hms0]
      push_neg
      exact ⟨hkl, hpsi, by simpa using hms⟩
    refine ⟨⟨?_, hnodrift⟩, hnodrift⟩
    show max _ (max _ _) = 0
    rw [hkl0, hpsi0, hms0]
    simp
  have hfold := Drift.detect_fold_prop (Drift.setBaseline d data).1 data
    (fun r => r.driftScore = 0 ∧ ¬ r.hasDrift)
    (Drift.setBaseline d data).1.baselineStats hstep ([], []) (by simp)
  simp only [Drift.detectDrift, if_neg hbne]
  refine ⟨_, _, rfl, ?_, ?_, ?_, ?_⟩
  · exact hfold.2
  · show ¬ (((Drift.setBaseline d data).1.baselineStats.foldl
      (Drift.detectStep (Drift.setBaseline d data).1 data) ([], [])).2 ≠ [])
    rw [hfold.1]
    simp
  · exact hfold.1
  · show (if ((Drift.setBaseline d data).1.baselineStats.foldl
        (Drift.detectStep (Drift.setBaseline d data).1 data) ([], [])).2 ≠ ([] : List String)
      then _ else (Drift.setBaseline d data).1.alerts) = (Drift.setBaseline d data).1.alerts
    rw [hfold.1]
    simp

/-- C6 witness: the default detector with a one-column numeric DataFrame fed
back to itself. -/
theorem C6_drift_roundtrip_witness :
    (let data : Drift.DataFrame :=
      [{ name := "hours_until_sla", numeric := true
       , values := [some 24, some 30, some 18] }]
    (data.map Drift.Column.name).Nodup ∧
    data.filter (fun c => c.numeric) ≠ [] ∧
    0 ≤ Drift.defaultDetector.klThreshold ∧
    0 ≤ Drift.defaultDetector.psiThreshold ∧
    0 ≤ Drift.defaultDetector.meanShiftThreshold ∧
    (∃ d2 report,
      Drift.detectDrift (Drift.setBaseline Drift.defaultDetector data).1 data
        "completion" "v1" = Except.ok (d2, report) ∧
      (∀ r ∈ report.featureResults, r.driftScore = 0 ∧ ¬ r.hasDrift) ∧
      ¬ report.hasDrift ∧
      report.driftedFeatures = [] ∧
      d2.alerts = (Drift.setBaseline Drift.defaultDetector data).1.alerts)) := by
  refine ⟨by decide, by decide, by norm_num [Drift.defaultDetector],
    by norm_num [Drift.defaultDetector], by norm_num [Drift.defaultDetector], ?_⟩
  exact C6_drift_roundtrip Drift.defaultDetector _ "completion" "v1"
    (by decide) (by decide) (by norm_num [Drift.defaultDetector])
    (by norm_num [Drift.defaultDetector]) (by norm_num [Drift.defaultDetector])

/-! ## Feedback processor (`src/ml/training/feedback_processor.py`)

Timestamps are ISO-8601 strings compared lexicographically in the source,
which coincides with chronological order; we model them as integers.
Training samples are Python dicts with possibly-missing (`None`/NaN) values,
modelled as insertion-ordered association lists of optional cells. -/

namespace Feedback

inductive Val where
  | num (q : ℚ)
  | str (s : String)
deriving DecidableEq, Repr

abbrev Cell := Option Val

abbrev Sample := List (String × Cell)

structure OverrideRecord where
  overrideId : String
  jobId : String
  originalVendorId : String
  selectedVendorId : String
  operatorId : String
  overrideReason : String
  overrideCategory : String
  originalScore : ℚ
  selectedScore : ℚ
  confidence : ℚ
  timestamp : Int
  wasLowConfidence : Bool
deriving DecidableEq, Repr

structure OutcomeRecord where
  outcomeId : String
  jobId : String
  vendorId : String
  completedSuccessfully : Bool
  timeToCompletionHours : ℚ
  requiredRework : Bool
  predictedCompletionProb : Option ℚ
  predictedTimeToComplete : Option ℚ
  predictedReworkRisk : Option ℚ
  wasAiRecommended : Bool
  wasOverridden : Bool
  timestamp : Int
deriving DecidableEq, Repr

/-- The dict built by `_override_to_training_sample`. -/
def overrideSample (o : OverrideRecord) : Sample :=
  [("job_id", some (Val.str o.jobId)),
   ("vendor_id", some (Val.str o.selectedVendorId)),
   ("original_score", some (Val.num o.originalScore)),
   ("selected_score", some (Val.num o.selectedScore)),
   ("confidence", some (Val.num o.confidence)),
   ("override_category", some (Val.str o.overrideCategory)),
   ("was_low_confidence", some (Val.num (if o.wasLowConfidence then 1 else 0))),
   ("target_completion", some (Val.num 1)),
   ("target_time", none),
   ("target_rework", some (Val.num 0)),
   ("sample_weight", some (Val.num 2))]

/-- `_override_to_training_sample` (declared `Optional` in the source but
always returns a dict). -/
def overrideToTrainingSample (o : OverrideRecord) : Option Sample :=
  some (overrideSample o)

/-- The dict built by `_outcome_to_training_sample`. -/
def outcomeSample (oc : OutcomeRecord) : Sample :=
  [("job_id", some (Val.str oc.jobId)),
   ("vendor_id", some (Val.str oc.vendorId)),
   ("predicted_completion_prob", oc.predictedCompletionProb.map Val.num),
   ("predicted_time_to_complete", oc.predictedTimeToComplete.map Val.num),
   ("predicted_rework_risk", oc.predictedReworkRisk.map Val.num),
   ("was_ai_recommended", some (Val.num (if oc.wasAiRecommended then 1 else 0))),
   ("was_overridden", some (Val.num (if oc.wasOverridden then 1 else 0))),
   ("target_completion", some (Val.num (if oc.completedSuccessfully then 1 else 0))),
   ("target_time", some (Val.num oc.timeToCompletionHours)),
   ("target_rework", some (Val.num (if oc.requiredRework then 1 else 0))),
   ("sample_weight", some (Val.num 1))]

/-- `_outcome_to_training_sample`. -/
def outcomeToTrainingSample (oc : OutcomeRecord) : Option Sample :=
  some (outcomeSample oc)

structure FeedbackProcessor where
  overrides : List OverrideRecord
  outcomes : List OutcomeRecord
deriving DecidableEq, Repr

structure FeedbackDataset where
  datasetId : String
  createdAt : Int
  totalSamples : Nat
  overrideSamples : Nat
  outcomeSamples : Nat
  completenessScore : ℚ
  recencyDays : Int
  featuresPath : String
  labelsPath : String
  metadataPath : String
deriving DecidableEq, Repr

/-- Column order of `pd.DataFrame(samples)`: first appearance across rows. -/
def unionCols (ss : List Sample) : List String :=
  ss.foldl (fun acc s => acc ++ (s.map Prod.fst).filter (fun c => c ∉ acc)) []

/-- Number of NaN cells a row contributes (`df.isna()` counts both values
stored as `None` and columns absent from the row's dict). -/
def missingIn (cols : List String) (s : Sample) : Nat :=
  (cols.filter (fun c => ((alookup s c).getD none).isNone)).length

/-- The zero-sample `FeedbackDataset` of the `if not samples` branch. -/
def zeroDataset (did : String) (now minRecencyDays : Int) : FeedbackDataset :=
  { datasetId := did, createdAt := now, totalSamples := 0, overrideSamples := 0
  , outcomeSamples := 0, completenessScore := 0, recencyDays := minRecencyDays
  , featuresPath := "", labelsPath := "", metadataPath := "" }

/-- `prepare_training_dataset`. `now` is the logical clock; the cutoff is
`now - minRecencyDays` and the recency filter keeps `timestamp ≥ cutoff`.
Alongside the returned `FeedbackDataset` we keep the sample rows that the
source writes to the parquet files. -/
def prepareTrainingDataset (p : FeedbackProcessor)
    (includeOverrides includeOutcomes : Bool) (minRecencyDays : Int)
    (now : Int) (did : String) : FeedbackDataset × List Sample :=
  let cutoff := now - minRecencyDays
  let ovs := if includeOverrides then
    p.overrides.filter (fun o => cutoff ≤ o.timestamp) else []
  let ocs := if includeOutcomes then
    p.outcomes.filter (fun o => cutoff ≤ o.timestamp) else []
  let oSamples := ovs.filterMap overrideToTrainingSample
  let cSamples := ocs.filterMap outcomeToTrainingSample
  let samples := oSamples ++ cSamples
  if samples = [] then
    (zeroDataset did now minRecencyDays, [])
  else
    let cols := unionCols samples
    let missing := (samples.map (missingIn cols)).sum
    let completeness : ℚ :=
      1 - (missing : ℚ) / ((samples.length : ℚ) * (cols.length : ℚ))
    ({ datasetId := did, createdAt := now
     , totalSamples := samples.length
     , overrideSamples := oSamples.length
     , outcomeSamples := cSamples.length
     , completenessScore := completeness
     , recencyDays := minRecencyDays
     , featuresPath := did ++ "/features.parquet"
     , labelsPath := did ++ "/labels.parquet"
     , metadataPath := did ++ "/metadata.json" }, samples)

lemma filterMap_some_comp {α β : Type} (f : α → β) (l : List α) :
    l.filterMap (fun a => some (f a)) = l.map f := by
  induction l with
  | nil => rfl
  | cons a l ih => simp [List.filterMap_cons, ih]

/-- Concrete processor with one override and one outcome inside the
90-day recency window (clock 100, cutoff 10). -/
def sampleProcessor : FeedbackProcessor :=
  { overrides := [{ overrideId := "ov1", jobId := "j1", originalVendorId := "va"
                  , selectedVendorId := "vb", operatorId := "op"
                  , overrideReason := "better fit", overrideCategory := "preference"
                  , originalScore := 1, selectedScore := 2, confidence := 1
                  , timestamp := 50, wasLowConfidence := true }]
  , outcomes := [{ outcomeId := "oc1", jobId := "j1", vendorId := "vb"
                 , completedSuccessfully := true, timeToCompletionHours := 5
                 , requiredRework := false, predictedCompletionProb := none
                 , predictedTimeToComplete := none, predictedReworkRisk := none
                 , wasAiRecommended := true, wasOverridden := false
                 , timestamp := 60 }] }

lemma filterMap_override_eq (l : List OverrideRecord) :
    l.filterMap overrideToTrainingSample = l.map overrideSample := by
  induction l with
  | nil => rfl
  | cons a l ih => simp [List.filterMap_cons, overrideToTrainingSample, ih]

lemma filterMap_outcome_eq (l : List OutcomeRecord) :
    l.filterMap outcomeToTrainingSample = l.map outcomeSample := by
  induction l with
  | nil => rfl
  | cons a l ih => simp [List.filterMap_cons, outcomeToTrainingSample, ih]

lemma prepare_counts (p : FeedbackProcessor) (m now : Int) (did : String) :
    (prepareTrainingDataset p true true m now did).1.totalSamples =
      (p.overrides.filter (fun o => now - m ≤ o.timestamp)).length +
      (p.outcomes.filter (fun o => now - m ≤ o.timestamp)).length ∧
    (prepareTrainingDataset p true true m now did).1.overrideSamples =
      (p.overrides.filter (fun o => now - m ≤ o.timestamp)).length ∧
    (prepareTrainingDataset p true true m now did).1.outcomeSamples =
      (p.outcomes.filter (fun o => now - m ≤ o.timestamp)).length := by
  by_cases h : (p.overrides.filter (fun o => now - m ≤ o.timestamp)).filterMap overrideToTrainingSample ++
      (p.outcomes.filter (fun o => now - m ≤ o.timestamp)).filterMap outcomeToTrainingSample = ([] : List Sample)
  · have h1 := (List.append_eq_nil.mp h).1
    have h2 := (List.append_eq_nil.mp h).2
    have e1 : p.overrides.filter (fun o => now - m ≤ o.timestamp) = [] := by
      rw [filterMap_override_eq] at h1
      simpa using h1
    have e2 : p.outcomes.filter (fun o => now - m ≤ o.timestamp) = [] := by
      rw [filterMap_outcome_eq] at h2
      simpa using h2
    simp only [prepareTrainingDataset, eq_self_iff_true, if_true, ite_true, e1, e2,
      List.filterMap_nil, List.nil_append, List.length_nil, zeroDataset]
    simp
  · rw [filterMap_override_eq, filterMap_outcome_eq] at h
    simp only [prepareTrainingDataset, eq_self_iff_true, if_true, ite_true,
      filterMap_override_eq, filterMap_outcome_eq]
    rw [if_neg h]
    simp [List.length_append]

lemma prepare_zero (p : FeedbackProcessor) (m now : Int) (did : String)
    (h1 : p.overrides.filter (fun o => now - m ≤ o.timestamp) = [])
    (h2 : p.outcomes.filter (fun o => now - m ≤ o.timestamp) = []) :
    prepareTrainingDataset p true true m now did = (zeroDataset did now m, []) := by
  simp only [prepareTrainingDataset, eq_self_iff_true, if_true, ite_true, h1, h2,
    List.filterMap_nil, List.nil_append]

end Feedback

/-- C9: prepareTrainingDataset keeps exactly the records whose timestamp lies
inside the recency window (timestamp ≥ now − minRecencyDays), turns each
survivor into one sample — override-derived samples carrying sample_weight 2.0
and outcome-derived samples carrying sample_weight 1.0 — reports totalSamples,
overrideSamples and outcomeSamples as the surviving counts (so one override and
one outcome in the window give 2/1/1), and when nothing survives it returns the
zero-sample FeedbackDataset instead of failing. -/
theorem C9_prepare_training_dataset (p : Feedback.FeedbackProcessor)
    (m now : Int) (did : String) :
    (∀ o : Feedback.OverrideRecord, ∃ s, Feedback.overrideToTrainingSample o = some s ∧
        alookup s "sample_weight" = some (some (Feedback.Val.num 2))) ∧
    (∀ oc : Feedback.OutcomeRecord, ∃ s, Feedback.outcomeToTrainingSample oc = some s ∧
        alookup s "sample_weight" = some (some (Feedback.Val.num 1))) ∧
    ((Feedback.prepareTrainingDataset p true true m now did).1.totalSamples =
        (p.overrides.filter (fun o => now - m ≤ o.timestamp)).length +
        (p.outcomes.filter (fun o => now - m ≤ o.timestamp)).length ∧
     (Feedback.prepareTrainingDataset p true true m now did).1.overrideSamples =
        (p.overrides.filter (fun o => now - m ≤ o.timestamp)).length ∧
     (Feedback.prepareTrainingDataset p true true m now did).1.outcomeSamples =
        (p.outcomes.filter (fun o => now - m ≤ o.timestamp)).length) ∧
    (p.overrides.filter (fun o => now - m ≤ o.timestamp) = [] →
     p.outcomes.filter (fun o => now - m ≤ o.timestamp) = [] →
     Feedback.prepareTrainingDataset p true true m now did =
       (Feedback.zeroDataset did now m, [])) := by
  refine ⟨?_, ?_, Feedback.prepare_counts p m now did, Feedback.prepare_zero p m now did⟩
  · intro o
    exact ⟨Feedback.overrideSample o, rfl, rfl⟩
  · intro oc
    exact ⟨Feedback.outcomeSample oc, rfl, rfl⟩

/-- C9 witness: one override and one outcome in the window give dataset counts
2/1/1, and the empty processor yields the zero-sample dataset. -/
theorem C9_prepare_training_dataset_witness :
    (Feedback.prepareTrainingDataset Feedback.sampleProcessor true true 90 100 "d").1.totalSamples = 2 ∧
    (Feedback.prepareTrainingDataset Feedback.sampleProcessor true true 90 100 "d").1.overrideSamples = 1 ∧
    (Feedback.prepareTrainingDataset Feedback.sampleProcessor true true 90 100 "d").1.outcomeSamples = 1 ∧
    Feedback.prepareTrainingDataset ⟨[], []⟩ true true 90 100 "d" =
      (Feedback.zeroDataset "d" 100 90, []) := by
  have h := C9_prepare_training_dataset Feedback.sampleProcessor 90 100 "d"
  have h0 := C9_prepare_training_dataset ⟨[], []⟩ 90 100 "d"
  refine ⟨?_, ?_, ?_, h0.2.2.2 rfl rfl⟩
  · rw [h.2.2.1.1]; rfl
  · rw [h.2.2.1.2.1]; rfl
  · rw [h.2.2.1.2.2]; rfl
